import Mathlib

/-!
Shallow embedding of the reconciliation engine of
`src/app.py` (class `BalanceSheetReconciler`, its collaborator class
`QuickBooksAPI`, and the persistence it performs through the database
session).  Monetary values, which the Python code manipulates as floats
obtained from JSON, are modelled as exact rationals; JSON column values
that may be `null` are modelled explicitly, since `float(None)` raises a
`TypeError` in Python.  Report payloads are Python dicts: a key can be
absent (modelled with `Option`), and a dict's truthiness (used by
`reconcile`'s `not all([...])` guard) is "has at least one key", modelled
by tracking whether keys other than the ones the code reads are present.
-/

/-- Python errors that the reconciler code can raise: the generic
`Exception("Failed to retrieve required data from QuickBooks")` (the
spec's DataUnavailable), `TypeError` (e.g. `float(None)`), `KeyError`
(subscripting a dict without the key), and `AttributeError` (calling a
method the object does not define). -/
inductive PyErr where
  | dataUnavailable : PyErr
  | typeError : PyErr
  | keyError (key : String) : PyErr
  | attributeError (meth : String) : PyErr
deriving DecidableEq, Repr

/-- JSON scalar stored under a `value` key of a report column: either a
number (a numeric JSON string such as "100.50" is identified with the
rational it parses to) or JSON `null` (Python `None`). -/
inductive JVal where
  | jnum (q : ℚ) : JVal
  | jnull : JVal
deriving DecidableEq, Repr

/-- Python `float(v)`: a number converts to itself, `float(None)` raises
`TypeError`. -/
def pyFloat : JVal → Except PyErr ℚ
  | .jnum q => .ok q
  | .jnull => .error .typeError

/-- Python truth of `v != 0` for a column value: `None != 0` is `True`,
a number is `!= 0` iff it is nonzero. -/
def jvalNeZero : JVal → Bool
  | .jnum q => decide (q ≠ 0)
  | .jnull => true

/-- One entry of a `ColData` list: dict with optional `id` and `value`
keys (`col.get('id')`, `col.get('value')`). -/
structure ColData where
  id : Option String := none
  value : Option JVal := none
deriving DecidableEq, Repr

/-- Second-level row of a report: dict with optional `group` and
`ColData` keys. -/
structure SubRow where
  group : Option String := none
  colData : Option (List ColData) := none
deriving DecidableEq, Repr

/-- Top-level row of a report: dict with optional `ColData` (used by the
trial-balance walk) and optional nested `Rows` (used by the
balance-sheet walks). -/
structure TopRow where
  colData : Option (List ColData) := none
  rows : Option (List SubRow) := none
deriving DecidableEq, Repr

/-- Report payload (trial balance or balance sheet): a dict whose only
key the code reads is `Rows`; `hasOtherKeys` records whether the dict
carries any further keys (a real QuickBooks report also has `Header`,
`Columns`, ...), which only matters for Python truthiness. -/
structure Report where
  rows : Option (List TopRow) := none
  hasOtherKeys : Bool := false
deriving DecidableEq, Repr

/-- Python truthiness of a report dict: non-empty. -/
def reportTruthy (r : Report) : Bool :=
  r.rows.isSome || r.hasOtherKeys

/-- One account of the chart of accounts / bank accounts query
(`Name`, `AccountType`, `CurrentBalance` are the keys read, all via
`.get` with defaults). -/
structure QAccount where
  name : Option String := none
  accountType : Option String := none
  currentBalance : Option ℚ := none
deriving DecidableEq, Repr

/-- Body of a `QueryResponse` for accounts: `.get('Account', [])`. -/
structure QRAccounts where
  account : Option (List QAccount) := none
deriving DecidableEq, Repr

/-- Chart-of-accounts (or bank-accounts) payload: dict with optional
`QueryResponse` key. -/
structure Chart where
  queryResponse : Option QRAccounts := none
  hasOtherKeys : Bool := false
deriving DecidableEq, Repr

/-- Python truthiness of a chart dict: non-empty. -/
def chartTruthy (c : Chart) : Bool :=
  c.queryResponse.isSome || c.hasOtherKeys

/-- One customer or vendor of an open-items query: `.get('Balance', 0)`. -/
structure QParty where
  balance : Option ℚ := none
deriving DecidableEq, Repr

/-- Body of the open A/R `QueryResponse`: `.get('Customer', [])`. -/
structure QRCustomers where
  customer : Option (List QParty) := none
deriving DecidableEq, Repr

/-- Body of the open A/P `QueryResponse`: `.get('Vendor', [])`. -/
structure QRVendors where
  vendor : Option (List QParty) := none
deriving DecidableEq, Repr

/-- Open accounts-receivable payload. -/
structure OpenAR where
  queryResponse : Option QRCustomers := none
  hasOtherKeys : Bool := false
deriving DecidableEq, Repr

/-- Open accounts-payable payload. -/
structure OpenAP where
  queryResponse : Option QRVendors := none
  hasOtherKeys : Bool := false
deriving DecidableEq, Repr

/-- Adjustment record as the checks build it (the dict appended to
`self.adjustments`). -/
structure Adjustment where
  account_name : String
  original_amount : ℚ
  adjusted_amount : ℚ
  adjustment_amount : ℚ
  reason : String
  adjustment_type : String
deriving DecidableEq, Repr

/-- Mutable state of a `BalanceSheetReconciler` instance:
`self.adjustments` and `self.reconciliation_checks`.  The metrics dict
is an association list where a newly set key is consed on and lookup
takes the first (most recent) binding. -/
structure RState where
  adjustments : List Adjustment := []
  checks : List (String × ℚ) := []
deriving DecidableEq, Repr

/-- Two-digit zero-padded decimal string. -/
def pad2 (n : ℕ) : String :=
  if n < 10 then "0" ++ toString n else toString n

/-- Three-digit zero-padded decimal string (for comma groups). -/
def pad3 (n : ℕ) : String :=
  if n < 10 then "00" ++ toString n
  else if n < 100 then "0" ++ toString n
  else toString n

/-- Decimal rendering of a natural number with `,` thousands
separators, as Python's `,` format specifier produces. -/
def commaGroup (n : ℕ) : String :=
  if _h : n < 1000 then toString n
  else commaGroup (n / 1000) ++ "," ++ pad3 (n % 1000)
termination_by n
decreasing_by exact Nat.div_lt_self (by omega) (by omega)

/-- Round to the nearest integer, ties to even, as Python's float
formatting rounds. -/
def roundHalfEven (q : ℚ) : ℤ :=
  let f := ⌊q⌋
  if q - f < 1/2 then f
  else if 1/2 < q - f then f + 1
  else if f % 2 = 0 then f else f + 1

/-- Python `f-string` `:.2f` formatting of a number: two decimal
places, no thousands separators. -/
def fmtFixed2 (q : ℚ) : String :=
  let c := roundHalfEven (q * 100)
  let sign := if c < 0 then "-" else ""
  let a := c.natAbs
  sign ++ toString (a / 100) ++ "." ++ pad2 (a % 100)

/-- Python `f-string` `:,.2f` formatting of a number: two decimal
places with thousands separators. -/
def fmtComma2 (q : ℚ) : String :=
  let c := roundHalfEven (q * 100)
  let sign := if c < 0 then "-" else ""
  let a := c.natAbs
  sign ++ commaGroup (a / 100) ++ "." ++ pad2 (a % 100)

/-- Whether the first character list starts the second one. -/
def prefOf : List Char → List Char → Bool
  | [], _ => true
  | _ :: _, [] => false
  | a :: as, b :: bs => a == b && prefOf as bs

/-- Whether the needle occurs contiguously in the haystack. -/
def hasSubAux (needle : List Char) : List Char → Bool
  | [] => prefOf needle []
  | c :: rest => prefOf needle (c :: rest) || hasSubAux needle rest

/-- Python's `str.upper()`: uppercase each character.  (Defined over
the character list so that it evaluates definitionally; the library's
`String.toUpper` is compiled via byte positions and does not.) -/
def pyUpper (s : String) : String := String.mk (s.data.map Char.toUpper)

/-- Python's `needle in hay` on strings. -/
def strIn (needle hay : String) : Bool :=
  hasSubAux needle.toList hay.toList

/-- One column of the trial-balance summation
(`BalanceSheetReconciler._validate_trial_balance`, inner loop body):
skips columns without a `value` key or whose value `== 0`, adds
`float(value)` to the debit total when `id == 'Debit'` and to the
credit total when `id == 'Credit'`. -/
def tbColStep (acc : ℚ × ℚ) (col : ColData) : Except PyErr (ℚ × ℚ) :=
  match col.value with
  | none => .ok acc
  | some v =>
    if jvalNeZero v then
      if col.id = some "Debit" then do
        let x ← pyFloat v
        .ok (acc.1 + x, acc.2)
      else if col.id = some "Credit" then do
        let x ← pyFloat v
        .ok (acc.1, acc.2 + x)
      else .ok acc
    else .ok acc

/-- One top-level row of the trial-balance summation: rows without a
`ColData` key are skipped. -/
def tbRowStep (acc : ℚ × ℚ) (row : TopRow) : Except PyErr (ℚ × ℚ) :=
  match row.colData with
  | none => .ok acc
  | some cols => cols.foldlM tbColStep acc

/-- `BalanceSheetReconciler._validate_trial_balance`: returns without
doing anything when the payload has no `Rows` key; otherwise sums the
Debit and Credit columns, records
`reconciliation_checks['trial_balance_difference']`, and when the
absolute difference exceeds 0.01 appends one correction adjustment. -/
def validate_trial_balance (trial_balance : Report) (s : RState) :
    Except PyErr RState :=
  match trial_balance.rows with
  | none => .ok s
  | some rows => do
    let tot ← rows.foldlM tbRowStep ((0 : ℚ), (0 : ℚ))
    let difference := |tot.1 - tot.2|
    let s1 : RState :=
      { s with checks := ("trial_balance_difference", difference) :: s.checks }
    if difference > 1/100 then
      .ok { s1 with adjustments := s1.adjustments ++
        [{ account_name := "Trial Balance Adjustment"
           original_amount := difference
           adjusted_amount := 0
           adjustment_amount := -difference
           reason := "Trial balance out of balance by $" ++ fmtFixed2 difference
           adjustment_type := "correction" }] }
    else .ok s1

/-- Reading `sub_row['ColData'][-1].get('value', 0)` and applying
`float`: a missing `value` key defaults to `0`; `float(None)` raises.
The empty-list case would be Python's `IndexError`; every caller
guards it with a `len(...) > 1` test. -/
def readLastColVal (cols : List ColData) : Except PyErr ℚ :=
  match cols.getLast? with
  | none => .error .typeError
  | some c =>
    match c.value with
    | none => .ok 0
    | some v => pyFloat v

/-- One second-level row of
`BalanceSheetReconciler._verify_balance_sheet_totals`: rows with a
`ColData` list of length > 1 are classified by case-insensitive
substring match on their `group` label, and each classified total
overwrites the previous value of its category. -/
def bsSubStep (acc : ℚ × ℚ × ℚ) (sr : SubRow) : Except PyErr (ℚ × ℚ × ℚ) :=
  match sr.colData with
  | none => .ok acc
  | some cols =>
    if cols.length > 1 then do
      let section_name := sr.group.getD ""
      let total_value ← readLastColVal cols
      if strIn "ASSET" (pyUpper section_name) then
        .ok (total_value, acc.2.1, acc.2.2)
      else if strIn "LIABILITY" (pyUpper section_name) then
        .ok (acc.1, total_value, acc.2.2)
      else if strIn "EQUITY" (pyUpper section_name) then
        .ok (acc.1, acc.2.1, total_value)
      else .ok acc
    else .ok acc

/-- One top-level row of the balance-sheet totals walk: only rows with
a nested `Rows` list contribute. -/
def bsTopStep (acc : ℚ × ℚ × ℚ) (row : TopRow) : Except PyErr (ℚ × ℚ × ℚ) :=
  match row.rows with
  | none => pure acc
  | some subs => subs.foldlM bsSubStep acc

/-- `BalanceSheetReconciler._verify_balance_sheet_totals`: walks the
two-level row structure, takes the last matching row's last column per
category, records `reconciliation_checks['balance_sheet_difference']`
and appends one correction adjustment when
`|assets - (liabilities + equity)|` exceeds 0.01. -/
def verify_balance_sheet_totals (balance_sheet : Report) (s : RState) :
    Except PyErr RState :=
  match balance_sheet.rows with
  | none => .ok s
  | some rows => do
    let tot ← rows.foldlM bsTopStep ((0 : ℚ), (0 : ℚ), (0 : ℚ))
    let difference := |tot.1 - (tot.2.1 + tot.2.2)|
    let s1 : RState :=
      { s with checks := ("balance_sheet_difference", difference) :: s.checks }
    if difference > 1/100 then
      .ok { s1 with adjustments := s1.adjustments ++
        [{ account_name := "Balance Sheet Adjustment"
           original_amount := difference
           adjusted_amount := 0
           adjustment_amount := -difference
           reason := "Balance sheet out of balance by $" ++ fmtFixed2 difference
           adjustment_type := "correction" }] }
    else .ok s1

/-- One account of
`BalanceSheetReconciler._check_account_balances`: appends a correction
adjustment for a negative balance in an `Accounts Receivable`, `Cash`
or `Inventory` account, with adjusted amount `abs(balance)` and
adjustment amount `abs(balance) * 2`. -/
def coaStep (s : RState) (a : QAccount) : RState :=
  let account_name := a.name.getD ""
  let account_type := a.accountType.getD ""
  let current_balance := a.currentBalance.getD 0
  if (account_type = "Accounts Receivable" ∨ account_type = "Cash" ∨
      account_type = "Inventory") ∧ current_balance < 0 then
    { s with adjustments := s.adjustments ++
      [{ account_name := account_name
         original_amount := current_balance
         adjusted_amount := |current_balance|
         adjustment_amount := |current_balance| * 2
         reason := "Negative balance in " ++ account_type ++ " account"
         adjustment_type := "correction" }] }
  else s

/-- `BalanceSheetReconciler._check_account_balances`: returns without
doing anything when the chart has no `QueryResponse` key, otherwise
scans `QueryResponse.get('Account', [])`.  The `trial_balance`
argument is passed by `reconcile` but never used. -/
def check_account_balances (chart_of_accounts : Chart) (_trial_balance : Report)
    (s : RState) : Except PyErr RState :=
  match chart_of_accounts.queryResponse with
  | none => .ok s
  | some qr => .ok (((qr.account).getD []).foldl coaStep s)

/-- One account of
`BalanceSheetReconciler._reconcile_bank_accounts`: flags an absolute
balance above 1,000,000 with an informational adjustment of zero
delta. -/
def bankStep (s : RState) (a : QAccount) : RState :=
  let account_name := a.name.getD ""
  let ledger_balance := a.currentBalance.getD 0
  if |ledger_balance| > 1000000 then
    { s with adjustments := s.adjustments ++
      [{ account_name := account_name
         original_amount := ledger_balance
         adjusted_amount := ledger_balance
         adjustment_amount := 0
         reason := "Large bank balance requires manual review: $" ++
           fmtComma2 ledger_balance
         adjustment_type := "info" }] }
  else s

/-- `BalanceSheetReconciler._reconcile_bank_accounts`: returns without
doing anything when the payload is falsy (`None` or empty) or lacks a
`QueryResponse` key; despite the name it only flags large balances.
The `trial_balance` argument is passed by `reconcile` but never
used. -/
def reconcile_bank_accounts (bank_accounts : Option Chart)
    (_trial_balance : Report) (s : RState) : Except PyErr RState :=
  match bank_accounts with
  | none => .ok s
  | some b =>
    match b.queryResponse with
    | none => .ok s
    | some qr => .ok (((qr.account).getD []).foldl bankStep s)

/-- Total of open customer balances: zero when the payload is falsy or
has no `QueryResponse` key. -/
def openARTotal (open_ar : Option OpenAR) : ℚ :=
  match open_ar with
  | some r =>
    match r.queryResponse with
    | some qr => ((qr.customer).getD []).foldl (fun t c => t + c.balance.getD 0) 0
    | none => 0
  | none => 0

/-- Total of open vendor balances: zero when the payload is falsy or
has no `QueryResponse` key. -/
def openAPTotal (open_ap : Option OpenAP) : ℚ :=
  match open_ap with
  | some r =>
    match r.queryResponse with
    | some qr => ((qr.vendor).getD []).foldl (fun t v => t + v.balance.getD 0) 0
    | none => 0
  | none => 0

/-- `BalanceSheetReconciler._verify_open_items`: totals open customer
and vendor balances (a falsy payload or one without `QueryResponse`
contributes zero), records both totals as metrics, and appends an
informational adjustment when the A/R total exceeds 500,000.  The A/P
total never triggers an adjustment. -/
def verify_open_items (open_ar : Option OpenAR) (open_ap : Option OpenAP)
    (s : RState) : Except PyErr RState :=
  let total_ar : ℚ := openARTotal open_ar
  let total_ap : ℚ := openAPTotal open_ap
  let s1 : RState :=
    { s with checks :=
        ("total_open_ap", total_ap) :: ("total_open_ar", total_ar) :: s.checks }
  if total_ar > 500000 then
    .ok { s1 with adjustments := s1.adjustments ++
      [{ account_name := "Accounts Receivable"
         original_amount := total_ar
         adjusted_amount := total_ar
         adjustment_amount := 0
         reason := "High A/R balance requires review: $" ++ fmtComma2 total_ar
         adjustment_type := "info" }] }
  else .ok s1

/-- Inner loop of `BalanceSheetReconciler._validate_retained_earnings`
over one section's sub-rows: the `break` in the source exits only this
inner loop, so the scan yields the first sub-row of the section whose
`ColData` has length > 1 and whose `group` label contains `RETAINED`,
or nothing when the section has no such sub-row. -/
def retainedScanSubs : List SubRow → Except PyErr (Option ℚ)
  | [] => .ok none
  | sr :: rest =>
    match sr.colData with
    | none => retainedScanSubs rest
    | some cols =>
      if cols.length > 1 then
        if strIn "RETAINED" (pyUpper (sr.group.getD "")) then do
          let v ← readLastColVal cols
          .ok (some v)
        else retainedScanSubs rest
      else retainedScanSubs rest

/-- One top-level row of the retained-earnings walk: a section with a
match overwrites the accumulator with its first match, a section
without one leaves it alone. -/
def reTopStep (acc : ℚ) (row : TopRow) : Except PyErr ℚ :=
  match row.rows with
  | none => pure acc
  | some subs => do
    match ← retainedScanSubs subs with
    | some v => pure v
    | none => pure acc

/-- `BalanceSheetReconciler._validate_retained_earnings`: returns
without doing anything when the payload has no `Rows` key; otherwise
each section's first matching sub-row overwrites the running value
(later sections win), starting from 0, and a final negative value
produces one informational adjustment.  The `trial_balance` argument
is passed by `reconcile` but never used. -/
def validate_retained_earnings (balance_sheet : Report)
    (_trial_balance : Report) (s : RState) : Except PyErr RState :=
  match balance_sheet.rows with
  | none => .ok s
  | some rows => do
    let retained_earnings ← rows.foldlM reTopStep (0 : ℚ)
    if retained_earnings < 0 then
      .ok { s with adjustments := s.adjustments ++
        [{ account_name := "Retained Earnings"
           original_amount := retained_earnings
           adjusted_amount := retained_earnings
           adjustment_amount := 0
           reason := "Negative retained earnings: $" ++ fmtComma2 retained_earnings
           adjustment_type := "info" }] }
    else .ok s

/-- Summary balance sheet dict built by
`BalanceSheetReconciler._generate_summary_balance_sheet`: the nested
category buckets plus the derived totals. -/
structure Summary where
  assets_current : ℚ := 0
  assets_fixed : ℚ := 0
  assets_other : ℚ := 0
  liabilities_current : ℚ := 0
  liabilities_long_term : ℚ := 0
  equity_owners_equity : ℚ := 0
  equity_retained_earnings : ℚ := 0
  equity_net_income : ℚ := 0
  total_assets : ℚ := 0
  total_liabilities : ℚ := 0
  total_equity : ℚ := 0
deriving DecidableEq, Repr

/-- Categorisation step of the summary builder: case-insensitive
substring matches on the `group` label, assigning (overwriting) the
bucket the source assigns. -/
def categorize (summary : Summary) (account_name : String) (total_value : ℚ) :
    Summary :=
  if strIn "ASSET" (pyUpper account_name) then
    if strIn "CURRENT" (pyUpper account_name) then
      { summary with assets_current := total_value }
    else if strIn "FIXED" (pyUpper account_name) ||
        strIn "PROPERTY" (pyUpper account_name) then
      { summary with assets_fixed := total_value }
    else { summary with assets_other := total_value }
  else if strIn "LIABILITY" (pyUpper account_name) then
    if strIn "CURRENT" (pyUpper account_name) then
      { summary with liabilities_current := total_value }
    else { summary with liabilities_long_term := total_value }
  else if strIn "EQUITY" (pyUpper account_name) then
    if strIn "RETAINED" (pyUpper account_name) then
      { summary with equity_retained_earnings := total_value }
    else { summary with equity_owners_equity := total_value }
  else summary

/-- One second-level row of the summary builder: only rows with a
`ColData` list of length > 1 are read; the last column's value
(defaulting to 0 when the `value` key is absent) is categorised by
label. -/
def sbSubStep (acc : Summary) (sr : SubRow) : Except PyErr Summary :=
  match sr.colData with
  | none => .ok acc
  | some cols =>
    if cols.length > 1 then do
      let total_value ← readLastColVal cols
      .ok (categorize acc (sr.group.getD "") total_value)
    else .ok acc

/-- One top-level row of the summary builder: only rows with a nested
`Rows` list contribute. -/
def sbRowStep (acc : Summary) (row : TopRow) : Except PyErr Summary :=
  match row.rows with
  | none => pure acc
  | some subs => subs.foldlM sbSubStep acc

/-- `BalanceSheetReconciler._generate_summary_balance_sheet`: returns
the empty dict (`none` here) when the payload has no `Rows` key;
otherwise folds the two-level row structure through `categorize` and
fills in the three derived totals. -/
def generate_summary_balance_sheet (balance_sheet : Report) :
    Except PyErr (Option Summary) :=
  match balance_sheet.rows with
  | none => .ok none
  | some rows => do
    let sm ← rows.foldlM sbRowStep ({} : Summary)
    .ok (some { sm with
      total_assets := sm.assets_current + sm.assets_fixed + sm.assets_other
      total_liabilities := sm.liabilities_current + sm.liabilities_long_term
      total_equity := sm.equity_owners_equity + sm.equity_retained_earnings })

/-- Outcome of looking a fetch method up on the API collaborator
object: the object may not define the method at all (Python then
raises `AttributeError` at the call site), or the method runs and
returns a payload or `None`. -/
inductive Fetch (α : Type) where
  | missingMethod : Fetch α
  | method (result : Option α) : Fetch α
deriving DecidableEq, Repr

/-- Shape of the collaborator `reconcile` fetches its six payloads
from: one slot per method name the source calls on `self.qbo_api`. -/
structure API where
  get_trial_balance : Fetch Report
  get_balance_sheet_report : Fetch Report
  get_chart_of_accounts : Fetch Chart
  get_open_ar : Fetch OpenAR
  get_open_ap : Fetch OpenAP
  get_bank_accounts : Fetch Chart

/-- Calling a fetch method: a slot the object does not define raises
`AttributeError` naming the method. -/
def callMethod {α : Type} (meth : String) : Fetch α → Except PyErr (Option α)
  | .missingMethod => .error (.attributeError meth)
  | .method r => .ok r

/-- Row the source writes to the `balance_sheet_snapshots` table
(`BalanceSheetSnapshot(...)` in `reconcile`). -/
structure Snapshot where
  dateStr : String
  total_assets : ℚ
  total_liabilities : ℚ
  total_equity : ℚ
  is_balanced : Bool
  adjustments_count : ℕ
  status : String
deriving DecidableEq, Repr

/-- One record added to the database session by `reconcile`: the
snapshot row, then one adjustment row per accumulated adjustment. -/
inductive DbWrite where
  | snapshotWrite (snap : Snapshot) : DbWrite
  | adjustmentWrite (adj : Adjustment) : DbWrite
deriving DecidableEq, Repr

/-- Dict returned by `BalanceSheetReconciler.reconcile`. -/
structure RunResult where
  summary_balance_sheet : Summary
  adjustments : List Adjustment
  reconciliation_checks : List (String × ℚ)
  is_balanced : Bool
deriving DecidableEq, Repr

/-- Tail of `BalanceSheetReconciler.reconcile` after the fetches and
the mandatory-data guard: runs the six checks sequentially on the
instance state, builds the summary (reading
`summary_bs['total_assets']` raises `KeyError` when the builder
returned the empty dict), persists a snapshot row and one row per
adjustment through the database session, and returns the result dict
together with the updated instance state and the list of rows
persisted. -/
def runChecksAndPersist (tb bs : Report) (coa : Chart)
    (open_ar : Option OpenAR) (open_ap : Option OpenAP)
    (bank_accounts : Option Chart) (asOfDate : Option String) (today : String)
    (s0 : RState) : Except PyErr (RunResult × RState × List DbWrite) := do
  let s1 ← validate_trial_balance tb s0
  let s2 ← verify_balance_sheet_totals bs s1
  let s3 ← check_account_balances coa tb s2
  let s4 ← reconcile_bank_accounts bank_accounts tb s3
  let s5 ← verify_open_items open_ar open_ap s4
  let s6 ← validate_retained_earnings bs tb s5
  match ← generate_summary_balance_sheet bs with
  | none => .error (.keyError "total_assets")
  | some sm =>
    let isBal : Bool :=
      decide (|sm.total_assets - (sm.total_liabilities + sm.total_equity)| < 1/100)
    let snap : Snapshot :=
      { dateStr := asOfDate.getD today
        total_assets := sm.total_assets
        total_liabilities := sm.total_liabilities
        total_equity := sm.total_equity
        is_balanced := isBal
        adjustments_count := s6.adjustments.length
        status := "completed" }
    let writes := DbWrite.snapshotWrite snap ::
      s6.adjustments.map DbWrite.adjustmentWrite
    .ok ({ summary_balance_sheet := sm
           adjustments := s6.adjustments
           reconciliation_checks := s6.checks
           is_balanced := isBal }, s6, writes)

/-- `BalanceSheetReconciler.reconcile(as_of_date)`: fetches the six
payloads in source order (each fetch first looks the method up on the
collaborator object), raises the DataUnavailable exception unless the
trial balance, balance sheet and chart of accounts are all truthy, and
otherwise runs the checks-and-persist tail.  `today` stands for
`datetime.now().date()`. -/
def reconcile (api : API) (asOfDate : Option String) (today : String)
    (s0 : RState) : Except PyErr (RunResult × RState × List DbWrite) := do
  let trial_balance ← callMethod "get_trial_balance" api.get_trial_balance
  let balance_sheet ← callMethod "get_balance_sheet_report" api.get_balance_sheet_report
  let chart_of_accounts ← callMethod "get_chart_of_accounts" api.get_chart_of_accounts
  let open_ar ← callMethod "get_open_ar" api.get_open_ar
  let open_ap ← callMethod "get_open_ap" api.get_open_ap
  let bank_accounts ← callMethod "get_bank_accounts" api.get_bank_accounts
  match trial_balance, balance_sheet, chart_of_accounts with
  | some tb, some bs, some coa =>
    if reportTruthy tb && reportTruthy bs && chartTruthy coa then
      runChecksAndPersist tb bs coa open_ar open_ap bank_accounts asOfDate today s0
    else .error .dataUnavailable
  | _, _, _ => .error .dataUnavailable

/-- Model of the `QuickBooksAPI` class of `src/app.py` as seen by
`reconcile`, parameterised by what the network returns for each
request (a payload, or `None` on a request exception): the class
defines `get_trial_balance`, `get_balance_sheet_report`,
`get_chart_of_accounts`, `get_open_ar` and `get_open_ap`, but no
`get_bank_accounts` method. -/
def quickBooksAPI (tb bs : Option Report) (coa : Option Chart)
    (ar : Option OpenAR) (ap : Option OpenAP) : API :=
  { get_trial_balance := .method tb
    get_balance_sheet_report := .method bs
    get_chart_of_accounts := .method coa
    get_open_ar := .method ar
    get_open_ap := .method ap
    get_bank_accounts := .missingMethod }

/-- Hypothetical collaborator that defines all six fetch methods (what
the spec's External Report Source contract describes), parameterised by
what each method returns. -/
def fullAPI (tb bs : Option Report) (coa : Option Chart) (ar : Option OpenAR)
    (ap : Option OpenAP) (bank : Option Chart) : API :=
  { get_trial_balance := .method tb
    get_balance_sheet_report := .method bs
    get_chart_of_accounts := .method coa
    get_open_ar := .method ar
    get_open_ap := .method ap
    get_bank_accounts := .method bank }

/-- Whether an `Except` computation succeeded. -/
def exceptIsOk {α : Type} : Except PyErr α → Bool
  | .ok _ => true
  | .error _ => false

/-- A column value is numeric when it is not JSON `null` (only `null`
makes `float` raise in this data model). -/
def colNumeric (c : ColData) : Bool :=
  match c.value with
  | some .jnull => false
  | _ => true

/-- All column values of a top-level row, and of its nested sub-rows,
are numeric. -/
def topRowNumeric (r : TopRow) : Bool :=
  ((r.colData).getD []).all colNumeric &&
    ((r.rows).getD []).all (fun sr => ((sr.colData).getD []).all colNumeric)

/-- All column values anywhere in a report payload are numeric. -/
def reportNumeric (r : Report) : Bool :=
  ((r.rows).getD []).all topRowNumeric

/-- Numeric content of an optional column value: a number is itself,
an absent value or `null` counts as 0 (callers only use this under a
`colNumeric` hypothesis, where the `null` case cannot occur). -/
def jnumVal : Option JVal → ℚ
  | some (.jnum q) => q
  | _ => 0

/-- Equality of `Except` values is decidable when both component types
have decidable equality (used to evaluate witnesses). -/
instance exceptDecidableEq {ε α : Type} [DecidableEq ε] [DecidableEq α] :
    DecidableEq (Except ε α) := fun a b =>
  match a, b with
  | .ok x, .ok y =>
    if h : x = y then .isTrue (by rw [h])
    else .isFalse (fun hc => h (Except.ok.inj hc))
  | .error x, .error y =>
    if h : x = y then .isTrue (by rw [h])
    else .isFalse (fun hc => h (Except.error.inj hc))
  | .ok _, .error _ => .isFalse (fun hc => by injection hc)
  | .error _, .ok _ => .isFalse (fun hc => by injection hc)

/-- Contribution of one column to the sum of the `tag`-tagged column
values of a trial balance, following the spec's wording: the value it
carries when its `id` is `tag`, nothing otherwise. -/
def colContrib (tag : String) (c : ColData) : ℚ :=
  if c.id = some tag then jnumVal c.value else 0

/-- Spec-side sum of all `Debit`-tagged column values across all rows. -/
def specDebits (rows : List TopRow) : ℚ :=
  (rows.map (fun r => (((r.colData).getD []).map (colContrib "Debit")).sum)).sum

/-- Spec-side sum of all `Credit`-tagged column values across all rows. -/
def specCredits (rows : List TopRow) : ℚ :=
  (rows.map (fun r => (((r.colData).getD []).map (colContrib "Credit")).sum)).sum

/-- Adjustment the spec says the trial-balance check appends for a
difference `d`: a correction named `Trial Balance Adjustment` whose
delta is `-d` and whose reason cites the dollar difference to two
decimal places. -/
def specTBAdjustment (d : ℚ) : Adjustment :=
  { account_name := "Trial Balance Adjustment"
    original_amount := d
    adjusted_amount := 0
    adjustment_amount := -d
    reason := "Trial balance out of balance by $" ++ fmtFixed2 d
    adjustment_type := "correction" }

/-- Adjustment the spec (claim C2) says the account-balance check
appends for a negative balance `B` in an Accounts Receivable, Cash or
Inventory account: `adjusted_amount = |B|` and delta `2 * |B|`;
accounts of other types or with non-negative balances yield nothing. -/
def specNegAdj (a : QAccount) : Option Adjustment :=
  if (a.accountType.getD "" = "Accounts Receivable" ∨
      a.accountType.getD "" = "Cash" ∨
      a.accountType.getD "" = "Inventory") ∧ a.currentBalance.getD 0 < 0 then
    some
      { account_name := a.name.getD ""
        original_amount := a.currentBalance.getD 0
        adjusted_amount := |a.currentBalance.getD 0|
        adjustment_amount := 2 * |a.currentBalance.getD 0|
        reason := "Negative balance in " ++ a.accountType.getD "" ++ " account"
        adjustment_type := "correction" }
  else none

/-- Rows of the spec's Scenario B trial balance: one row with a Debit
column of 100500.00 and a Credit column of 100000.00. -/
def rowsScenB : List TopRow :=
  [ { colData := some
        [ { id := some "Debit", value := some (.jnum 100500) }
        , { id := some "Credit", value := some (.jnum 100000) } ] } ]

/-- Scenario B trial-balance payload. -/
def tbScenB : Report := { rows := some rowsScenB }

/-- Petty-cash chart of the spec's Scenario C. -/
def coaPet : Chart :=
  { queryResponse := some
      { account := some
          [ { name := some "Petty Cash"
              accountType := some "Cash"
              currentBalance := some (-200) } ] } }

/-- Trial balance consisting of an empty `Rows` list. -/
def tbMin : Report := { rows := some [] }

/-- The eight buckets of the summary balance sheet. -/
inductive SBucket where
  | assetsCurrent : SBucket
  | assetsFixed : SBucket
  | assetsOther : SBucket
  | liabCurrent : SBucket
  | liabLongTerm : SBucket
  | eqOwners : SBucket
  | eqRetained : SBucket
  | eqNetIncome : SBucket
deriving DecidableEq, Repr

/-- Bucket projection of a summary. -/
def getBucket (sm : Summary) : SBucket → ℚ
  | .assetsCurrent => sm.assets_current
  | .assetsFixed => sm.assets_fixed
  | .assetsOther => sm.assets_other
  | .liabCurrent => sm.liabilities_current
  | .liabLongTerm => sm.liabilities_long_term
  | .eqOwners => sm.equity_owners_equity
  | .eqRetained => sm.equity_retained_earnings
  | .eqNetIncome => sm.equity_net_income

/-- Bucket assignment on a summary (leaves all other fields alone). -/
def setBucket (sm : Summary) : SBucket → ℚ → Summary
  | .assetsCurrent, v => { sm with assets_current := v }
  | .assetsFixed, v => { sm with assets_fixed := v }
  | .assetsOther, v => { sm with assets_other := v }
  | .liabCurrent, v => { sm with liabilities_current := v }
  | .liabLongTerm, v => { sm with liabilities_long_term := v }
  | .eqOwners, v => { sm with equity_owners_equity := v }
  | .eqRetained, v => { sm with equity_retained_earnings := v }
  | .eqNetIncome, v => { sm with equity_net_income := v }

/-- Spec-side classification of a group label (claim C3's decision
list): `ASSET` then `CURRENT` / `FIXED` or `PROPERTY` / other;
`LIABILITY` then `CURRENT` / other; `EQUITY` then `RETAINED` / other;
all case-insensitive substring matches.  The `net_income` bucket is
never a target. -/
def classifyLabel (label : String) : Option SBucket :=
  if strIn "ASSET" (pyUpper label) then
    if strIn "CURRENT" (pyUpper label) then some .assetsCurrent
    else if strIn "FIXED" (pyUpper label) || strIn "PROPERTY" (pyUpper label) then
      some .assetsFixed
    else some .assetsOther
  else if strIn "LIABILITY" (pyUpper label) then
    if strIn "CURRENT" (pyUpper label) then some .liabCurrent
    else some .liabLongTerm
  else if strIn "EQUITY" (pyUpper label) then
    if strIn "RETAINED" (pyUpper label) then some .eqRetained
    else some .eqOwners
  else none

/-- Spec-side value of a row: the last column's value, with an absent
`value` key (or an absent last column) counting as 0. -/
def specLastVal (cols : List ColData) : ℚ :=
  match cols.getLast? with
  | some c => jnumVal c.value
  | none => 0

/-- Spec-side classification event of a second-level row: a bucket and
value when the row has at least two columns and a classifiable label,
nothing otherwise. -/
def rowEvent (sr : SubRow) : Option (SBucket × ℚ) :=
  match sr.colData with
  | some cols =>
    if cols.length > 1 then
      match classifyLabel (sr.group.getD "") with
      | some b => some (b, specLastVal cols)
      | none => none
    else none
  | none => none

/-- Spec-side "the last matching row's value" for a bucket over a list
of second-level rows, when any row matches. -/
def lastEventVal (b : SBucket) : List SubRow → Option ℚ
  | [] => none
  | sr :: rest =>
    match lastEventVal b rest with
    | some v => some v
    | none =>
      match rowEvent sr with
      | some bv => if bv.1 = b then some bv.2 else none
      | none => none

/-- All second-level rows of a report, in traversal order (top-level
rows without a nested `Rows` list contribute nothing). -/
def secondLevel (rows : List TopRow) : List SubRow :=
  (rows.map fun r => (r.rows).getD []).flatten

/-- Spec-side bucket value: the last matching second-level row's
value, or 0 when no row matches. -/
def specBucketVal (rows : List TopRow) (b : SBucket) : ℚ :=
  (lastEventVal b (secondLevel rows)).getD 0

/-- Summary balance sheet as claim C3 describes it: each bucket holds
the last matching row's value, the three totals are derived sums, and
`net_income` is never populated. -/
def specSummary (rows : List TopRow) : Summary :=
  { assets_current := specBucketVal rows .assetsCurrent
    assets_fixed := specBucketVal rows .assetsFixed
    assets_other := specBucketVal rows .assetsOther
    liabilities_current := specBucketVal rows .liabCurrent
    liabilities_long_term := specBucketVal rows .liabLongTerm
    equity_owners_equity := specBucketVal rows .eqOwners
    equity_retained_earnings := specBucketVal rows .eqRetained
    equity_net_income := 0
    total_assets := specBucketVal rows .assetsCurrent +
      specBucketVal rows .assetsFixed + specBucketVal rows .assetsOther
    total_liabilities := specBucketVal rows .liabCurrent +
      specBucketVal rows .liabLongTerm
    total_equity := specBucketVal rows .eqOwners +
      specBucketVal rows .eqRetained }

/-- Pure form of the summary builder's row step. -/
def sbApply (acc : Summary) (sr : SubRow) : Summary :=
  match rowEvent sr with
  | some bv => setBucket acc bv.1 bv.2
  | none => acc

/-- Second-level rows of the claim C3 witness balance sheet: a current
asset of 300000.00 and an equity group of 300000.00. -/
def subsScenD : List SubRow :=
  [ { group := some "Current Assets"
      colData := some [ ({} : ColData), { value := some (.jnum 300000) } ] }
  , { group := some "Equity"
      colData := some [ ({} : ColData), { value := some (.jnum 300000) } ] } ]

/-- Top-level rows of the claim C3 witness balance sheet. -/
def rowsScenD : List TopRow := [ { rows := some subsScenD } ]

/-- Claim C3 witness balance-sheet payload. -/
def bsScenD : Report := { rows := some rowsScenD }

/-- Spec-side matching condition of the retained-earnings walk: a
sub-row with at least two columns whose group label contains
`RETAINED` case-insensitively. -/
def retainedMatch (sr : SubRow) : Bool :=
  match sr.colData with
  | some cols => decide (cols.length > 1) &&
      strIn "RETAINED" (pyUpper (sr.group.getD ""))
  | none => false

/-- First matching sub-row's value within one section, if any. -/
def specSectionFirstRetained (subs : List SubRow) : Option ℚ :=
  (subs.find? retainedMatch).map (fun sr => specLastVal ((sr.colData).getD []))

/-- Per-section first-match values, in section order (sections without
a match or without nested rows contribute nothing). -/
def sectionRetainedVals (rows : List TopRow) : List ℚ :=
  rows.filterMap (fun r =>
    match r.rows with
    | some subs => specSectionFirstRetained subs
    | none => none)

/-- Retained-earnings value the code ends up with: the first match of
the last section containing a match, or 0 when none does (the `break`
in the source only exits the inner loop, so later sections overwrite
earlier ones). -/
def specRetained (rows : List TopRow) : ℚ :=
  ((sectionRetainedVals rows).getLast?).getD 0

/-- Value of the first matching sub-row across the whole two-level
traversal — what claim C8 says the check reads. -/
def specFirstRetainedOverall (rows : List TopRow) : Option ℚ :=
  ((secondLevel rows).find? retainedMatch).map
    (fun sr => specLastVal ((sr.colData).getD []))

/-- Informational adjustment the retained-earnings check appends for a
negative value `v`: zero delta, reason citing the value. -/
def specREAdjustment (v : ℚ) : Adjustment :=
  { account_name := "Retained Earnings"
    original_amount := v
    adjusted_amount := v
    adjustment_amount := 0
    reason := "Negative retained earnings: $" ++ fmtComma2 v
    adjustment_type := "info" }

/-- Two-section balance sheet refuting claim C8 as stated: the first
section's `RETAINED EARNINGS` group carries -5.00 (the first match in
traversal order), the second section's `RETAINED` group carries
3.00. -/
def rowsTwoRe : List TopRow :=
  [ { rows := some
        [ { group := some "RETAINED EARNINGS"
            colData := some [ ({} : ColData), { value := some (.jnum (-5)) } ] } ] }
  , { rows := some
        [ { group := some "RETAINED"
            colData := some [ ({} : ColData), { value := some (.jnum 3) } ] } ] } ]

/-- Payload wrapping `rowsTwoRe`. -/
def bsTwoRe : Report := { rows := some rowsTwoRe }

/-- Single-section balance sheet with a negative retained-earnings
group, for the claim C8 witness. -/
def rowsRe1 : List TopRow :=
  [ { rows := some
        [ { group := some "Retained Earnings"
            colData := some [ ({} : ColData), { value := some (.jnum (-5)) } ] } ] } ]

/-- Payload wrapping `rowsRe1`. -/
def bsRe1 : Report := { rows := some rowsRe1 }

/-- Informational adjustment the bank check appends for a large
balance. -/
def specBankAdj (a : QAccount) : Option Adjustment :=
  if |a.currentBalance.getD 0| > 1000000 then
    some
      { account_name := a.name.getD ""
        original_amount := a.currentBalance.getD 0
        adjusted_amount := a.currentBalance.getD 0
        adjustment_amount := 0
        reason := "Large bank balance requires manual review: $" ++
          fmtComma2 (a.currentBalance.getD 0)
        adjustment_type := "info" }
  else none

/-- Informational adjustment the open-items check appends for a large
A/R total. -/
def specARAdjustment (v : ℚ) : Adjustment :=
  { account_name := "Accounts Receivable"
    original_amount := v
    adjusted_amount := v
    adjustment_amount := 0
    reason := "High A/R balance requires review: $" ++ fmtComma2 v
    adjustment_type := "info" }

/-- Truthiness of an optional report payload: `None` is falsy. -/
def optReportTruthy : Option Report → Bool
  | none => false
  | some r => reportTruthy r

/-- Truthiness of an optional chart payload: `None` is falsy. -/
def optChartTruthy : Option Chart → Bool
  | none => false
  | some c => chartTruthy c

/-- Report payload modelling the empty JSON dict: present, not null,
but falsy in Python. -/
def emptyReport : Report := {}

/-- Balance sheet consisting of an empty `Rows` list. -/
def bsMin : Report := { rows := some [] }

/-- Chart of accounts whose `QueryResponse` has no `Account` list. -/
def coaMin : Chart := { queryResponse := some {} }

/-- Balance sheet that is truthy (it has other keys, like a real
QuickBooks report's `Header`) but has no top-level `Rows` key. -/
def bsNR : Report := { hasOtherKeys := true }

/-- Trial balance whose single Debit column carries a JSON `null`
value: `float(None)` raises `TypeError` inside the first check. -/
def tbBad : Report :=
  { rows := some [ { colData := some [ { id := some "Debit", value := some .jnull } ] } ] }

/-- The Petty Cash correction the account-balance check produces. -/
def pettyAdj : Adjustment :=
  { account_name := "Petty Cash"
    original_amount := -200
    adjusted_amount := 200
    adjustment_amount := 400
    reason := "Negative balance in Cash account"
    adjustment_type := "correction" }

/-- Minimal well-formed collaborator: empty-rows reports, empty chart,
no optional payloads. -/
def apiMin : API := fullAPI (some tbMin) (some bsMin) (some coaMin) none none none

/-- Result of the minimal run started from an empty instance state. -/
def c5res : RunResult × RState × List DbWrite :=
  ({ summary_balance_sheet := {}
     adjustments := []
     reconciliation_checks := [("total_open_ap", 0), ("total_open_ar", 0),
       ("balance_sheet_difference", 0), ("trial_balance_difference", 0)]
     is_balanced := true },
   { adjustments := []
     checks := [("total_open_ap", 0), ("total_open_ar", 0),
       ("balance_sheet_difference", 0), ("trial_balance_difference", 0)] },
   [DbWrite.snapshotWrite
     { dateStr := "2024-01-01"
       total_assets := 0
       total_liabilities := 0
       total_equity := 0
       is_balanced := true
       adjustments_count := 0
       status := "completed" }])

/-- Collaborator returning the minimal reports and the Petty Cash
chart. -/
def apiPet : API := fullAPI (some tbMin) (some bsMin) (some coaPet) none none none

/-- Instance state left behind by a first Petty Cash run started from
a fresh instance. -/
def c9state1 : RState :=
  { adjustments := [pettyAdj]
    checks := [("total_open_ap", 0), ("total_open_ar", 0),
      ("balance_sheet_difference", 0), ("trial_balance_difference", 0)] }

/-- Result of the first Petty Cash run (fresh instance state). -/
def c9res1 : RunResult × RState × List DbWrite :=
  ({ summary_balance_sheet := {}
     adjustments := [pettyAdj]
     reconciliation_checks := [("total_open_ap", 0), ("total_open_ar", 0),
       ("balance_sheet_difference", 0), ("trial_balance_difference", 0)]
     is_balanced := true },
   c9state1,
   [DbWrite.snapshotWrite
     { dateStr := "2024-01-01"
       total_assets := 0
       total_liabilities := 0
       total_equity := 0
       is_balanced := true
       adjustments_count := 1
       status := "completed" },
    DbWrite.adjustmentWrite pettyAdj])

/-- Result of the second Petty Cash run on the same instance. -/
def c9res2 : RunResult × RState × List DbWrite :=
  ({ summary_balance_sheet := {}
     adjustments := [pettyAdj, pettyAdj]
     reconciliation_checks := [("total_open_ap", 0), ("total_open_ar", 0),
       ("balance_sheet_difference", 0), ("trial_balance_difference", 0),
       ("total_open_ap", 0), ("total_open_ar", 0),
       ("balance_sheet_difference", 0), ("trial_balance_difference", 0)]
     is_balanced := true },
   { adjustments := [pettyAdj, pettyAdj]
     checks := [("total_open_ap", 0), ("total_open_ar", 0),
       ("balance_sheet_difference", 0), ("trial_balance_difference", 0),
       ("total_open_ap", 0), ("total_open_ar", 0),
       ("balance_sheet_difference", 0), ("trial_balance_difference", 0)] },
   [DbWrite.snapshotWrite
     { dateStr := "2024-01-01"
       total_assets := 0
       total_liabilities := 0
       total_equity := 0
       is_balanced := true
       adjustments_count := 2
       status := "completed" },
    DbWrite.adjustmentWrite pettyAdj, DbWrite.adjustmentWrite pettyAdj])

/-- Monad law for `Except`: `pure` is `ok`. -/
theorem except_pure {α : Type} (a : α) :
    (pure a : Except PyErr α) = Except.ok a := rfl

/-- Monad law for `Except`: binding a success applies the
continuation. -/
theorem except_bind_ok {α β : Type} (a : α) (g : α → Except PyErr β) :
    (Except.ok a >>= g) = g a := rfl

/-- Monad law for `Except`: binding an error short-circuits. -/
theorem except_bind_err {α β : Type} (e : PyErr) (g : α → Except PyErr β) :
    ((Except.error e : Except PyErr α) >>= g) = Except.error e := rfl

/-- Rounding fixes an integer. -/
theorem roundHalfEven_intCast (n : ℤ) : roundHalfEven (n : ℚ) = n := by
  unfold roundHalfEven
  norm_num

/-- Evaluation rule for `fmtFixed2` once the cent value is known. -/
theorem fmtFixed2_eval (q : ℚ) (n : ℤ) (h : q * 100 = (n : ℚ)) :
    fmtFixed2 q = (if n < 0 then "-" else "") ++
      toString (n.natAbs / 100) ++ "." ++ pad2 (n.natAbs % 100) := by
  unfold fmtFixed2
  rw [h, roundHalfEven_intCast]

/-- Evaluation rule for `fmtComma2` once the cent value is known. -/
theorem fmtComma2_eval (q : ℚ) (n : ℤ) (h : q * 100 = (n : ℚ)) :
    fmtComma2 q = (if n < 0 then "-" else "") ++
      commaGroup (n.natAbs / 100) ++ "." ++ pad2 (n.natAbs % 100) := by
  unfold fmtComma2
  rw [h, roundHalfEven_intCast]

/-- One trial-balance column adds exactly its spec-side Debit and
Credit contributions to the two running totals. -/
theorem tbColStep_ok (x : ColData) (hx : colNumeric x = true) (d c : ℚ) :
    tbColStep (d, c) x =
      .ok (d + colContrib "Debit" x, c + colContrib "Credit" x) := by
  unfold tbColStep colContrib
  cases hv : x.value with
  | none => simp [hv, jnumVal]
  | some v =>
    cases v with
    | jnull => simp [colNumeric, hv] at hx
    | jnum q =>
      simp only [hv]
      by_cases hq : q = 0
      · subst hq
        simp [jvalNeZero, jnumVal]
      · rw [if_pos (by simp [jvalNeZero, hq])]
        by_cases hid : x.id = some "Debit"
        · simp [hid, pyFloat, jnumVal, except_bind_ok]
        · by_cases hid2 : x.id = some "Credit"
          · simp [hid, hid2, pyFloat, jnumVal, except_bind_ok]
          · simp [hid, hid2, pyFloat, jnumVal, except_bind_ok]

/-- Folding the trial-balance column step over a numeric column list
is pure and adds the spec-side sums. -/
theorem tbColStep_foldlM (cols : List ColData) :
    cols.all colNumeric = true → ∀ d c : ℚ,
      cols.foldlM tbColStep (d, c) =
        .ok (d + (cols.map (colContrib "Debit")).sum,
             c + (cols.map (colContrib "Credit")).sum) := by
  induction cols with
  | nil => intro _ d c; simp [List.foldlM, except_pure]
  | cons x xs ih =>
    intro hnum d c
    simp only [List.all_cons, Bool.and_eq_true] at hnum
    rw [List.foldlM_cons, tbColStep_ok x hnum.1 d c, except_bind_ok,
      ih hnum.2]
    simp [add_assoc]

/-- Folding the trial-balance row step over numeric rows is pure and
computes the spec-side Debit and Credit sums. -/
theorem tbRowStep_foldlM (rows : List TopRow) :
    rows.all topRowNumeric = true → ∀ d c : ℚ,
      rows.foldlM tbRowStep (d, c) =
        .ok (d + specDebits rows, c + specCredits rows) := by
  induction rows with
  | nil => intro _ d c; simp [List.foldlM, specDebits, specCredits, except_pure]
  | cons r rs ih =>
    intro hnum d c
    simp only [List.all_cons, Bool.and_eq_true] at hnum
    have hr : tbRowStep (d, c) r =
        .ok (d + (((r.colData).getD []).map (colContrib "Debit")).sum,
             c + (((r.colData).getD []).map (colContrib "Credit")).sum) := by
      unfold tbRowStep
      cases hcd : r.colData with
      | none => simp [hcd]
      | some cols =>
        have hcols : cols.all colNumeric = true := by
          have h1 := hnum.1
          unfold topRowNumeric at h1
          rw [hcd] at h1
          simp only [Bool.and_eq_true] at h1
          exact h1.1
        show cols.foldlM tbColStep (d, c) = _
        rw [tbColStep_foldlM cols hcols d c]
        simp [hcd]
    rw [List.foldlM_cons, hr, except_bind_ok, ih hnum.2]
    simp [specDebits, specCredits, add_assoc]

/-- Characterisation of the trial-balance check on numeric payloads
with a `Rows` collection. -/
theorem validate_trial_balance_spec (tb : Report) (rows : List TopRow) (s : RState)
    (hrows : tb.rows = some rows) (hnum : reportNumeric tb = true) :
    validate_trial_balance tb s =
      .ok { adjustments := s.adjustments ++
              (if |specDebits rows - specCredits rows| > 1/100
               then [specTBAdjustment |specDebits rows - specCredits rows|]
               else [])
            checks := ("trial_balance_difference",
              |specDebits rows - specCredits rows|) :: s.checks } := by
  have hnum2 : rows.all topRowNumeric = true := by
    unfold reportNumeric at hnum
    rw [hrows] at hnum
    simpa using hnum
  unfold validate_trial_balance
  rw [hrows]
  show (rows.foldlM tbRowStep ((0 : ℚ), (0 : ℚ)) >>= fun tot =>
    (fun s1 : RState =>
      if |tot.1 - tot.2| > 1/100 then
        Except.ok { s1 with adjustments := s1.adjustments ++
          [{ account_name := "Trial Balance Adjustment"
             original_amount := |tot.1 - tot.2|
             adjusted_amount := 0
             adjustment_amount := -|tot.1 - tot.2|
             reason := "Trial balance out of balance by $" ++
               fmtFixed2 |tot.1 - tot.2|
             adjustment_type := "correction" }] }
      else Except.ok s1)
      { s with checks := ("trial_balance_difference", |tot.1 - tot.2|) :: s.checks }) = _
  rw [tbRowStep_foldlM rows hnum2 0 0, except_bind_ok]
  simp only [zero_add]
  split_ifs with hgt
  · simp [specTBAdjustment]
  · simp

/-- Claim C1: for every trial-balance payload with a `Rows` collection
and numeric column values, the trial-balance check records
`trial_balance_difference = |debits - credits|` (sums taken over all
`Debit`- and `Credit`-tagged columns of all rows) and appends exactly
one correction adjustment with delta `-(|debits - credits|)` and a
reason citing the difference to two decimal places when the difference
exceeds 0.01, and none otherwise. -/
theorem claim_C1 (tb : Report) (rows : List TopRow) (s : RState)
    (hrows : tb.rows = some rows) (hnum : reportNumeric tb = true) :
    validate_trial_balance tb s =
      .ok { adjustments := s.adjustments ++
              (if |specDebits rows - specCredits rows| > 1/100
               then [specTBAdjustment |specDebits rows - specCredits rows|]
               else [])
            checks := ("trial_balance_difference",
              |specDebits rows - specCredits rows|) :: s.checks } :=
  validate_trial_balance_spec tb rows s hrows hnum

/-- Witness for claim C1 at the spec's Scenario B: debit sum 100500.00
and credit sum 100000.00 yield metric 500.00 and the single correction
with delta -500.00. -/
theorem claim_C1_witness :
    validate_trial_balance tbScenB {} =
      .ok { adjustments :=
              [ { account_name := "Trial Balance Adjustment"
                  original_amount := 500
                  adjusted_amount := 0
                  adjustment_amount := -500
                  reason := "Trial balance out of balance by $500.00"
                  adjustment_type := "correction" } ]
            checks := [("trial_balance_difference", 500)] } := by
  have hDC : |specDebits rowsScenB - specCredits rowsScenB| = 500 := by
    norm_num [specDebits, specCredits, rowsScenB, colContrib, jnumVal]
    rw [if_neg (by decide : ¬("Credit" = "Debit")),
      if_neg (by decide : ¬("Debit" = "Credit"))]
    norm_num
  have hfmt : fmtFixed2 (500 : ℚ) = "500.00" := by
    rw [fmtFixed2_eval 500 50000 (by norm_num)]
    rfl
  have h1 := claim_C1 tbScenB rowsScenB {} rfl rfl
  rw [hDC] at h1
  rw [h1, if_pos (by norm_num : (500 : ℚ) > 1/100)]
  simp [specTBAdjustment, hfmt]

theorem coaStep_foldl (l : List QAccount) :
    ∀ s : RState, l.foldl coaStep s =
      { adjustments := s.adjustments ++ l.filterMap specNegAdj
        checks := s.checks } := by
  induction l with
  | nil => intro s; simp [List.filterMap]
  | cons x xs ih =>
    intro s
    rw [List.foldl_cons, ih]
    by_cases hx : (x.accountType.getD "" = "Accounts Receivable" ∨
        x.accountType.getD "" = "Cash" ∨
        x.accountType.getD "" = "Inventory") ∧ x.currentBalance.getD 0 < 0
    · simp only [coaStep, if_pos hx, List.filterMap_cons, specNegAdj, if_pos hx]
      simp [mul_comm, List.append_assoc]
    · simp only [coaStep, if_neg hx, List.filterMap_cons, specNegAdj, if_neg hx]

/-- Characterisation of the account-balance check when the chart
carries a `QueryResponse`. -/
theorem check_account_balances_spec (coa : Chart) (tb : Report)
    (qr : QRAccounts) (s : RState) (h : coa.queryResponse = some qr) :
    check_account_balances coa tb s =
      .ok { adjustments := s.adjustments ++ ((qr.account).getD []).filterMap specNegAdj
            checks := s.checks } := by
  unfold check_account_balances
  rw [h]
  show Except.ok (((qr.account).getD []).foldl coaStep s) = _
  rw [coaStep_foldl]

/-- Claim C2: for every chart-of-accounts payload carrying a
`QueryResponse`, the account-balance check appends, in order, exactly
the adjustments described by `specNegAdj` — one correction with
`adjusted_amount = |B|` and delta `2 * |B|` per account of type
Accounts Receivable, Cash or Inventory with negative balance `B`, and
nothing for any other account — and records no metric. -/
theorem claim_C2 (coa : Chart) (tb : Report) (qr : QRAccounts) (s : RState)
    (h : coa.queryResponse = some qr) :
    check_account_balances coa tb s =
      .ok { adjustments := s.adjustments ++ ((qr.account).getD []).filterMap specNegAdj
            checks := s.checks } :=
  check_account_balances_spec coa tb qr s h

/-- Witness for claim C2 at the spec's Scenario C: the Petty Cash
account with balance -200.00 yields exactly the correction with
adjusted amount 200.00 and delta 400.00. -/
theorem claim_C2_witness :
    check_account_balances coaPet tbMin {} =
      .ok { adjustments :=
              [ { account_name := "Petty Cash"
                  original_amount := -200
                  adjusted_amount := 200
                  adjustment_amount := 400
                  reason := "Negative balance in Cash account"
                  adjustment_type := "correction" } ]
            checks := [] } :=
  (claim_C2 coaPet tbMin
    { account := some
        [ { name := some "Petty Cash"
            accountType := some "Cash"
            currentBalance := some (-200) } ] } {} rfl).trans (by
      simp only [Option.getD_some, List.filterMap_cons, List.filterMap_nil,
        specNegAdj]
      norm_num
      rfl)

theorem getBucket_setBucket_same (sm : Summary) (b : SBucket) (v : ℚ) :
    getBucket (setBucket sm b v) b = v := by
  cases b <;> rfl

theorem getBucket_setBucket_ne (sm : Summary) (b b2 : SBucket) (v : ℚ)
    (h : b2 ≠ b) : getBucket (setBucket sm b v) b2 = getBucket sm b2 := by
  cases b <;> cases b2 <;> first
    | rfl
    | exact absurd rfl h

/-- The code's `categorize` coincides with the spec-side
classification followed by a bucket assignment. -/
theorem categorize_eq (sm : Summary) (name : String) (v : ℚ) :
    categorize sm name v =
      match classifyLabel name with
      | some b => setBucket sm b v
      | none => sm := by
  unfold categorize classifyLabel
  split_ifs <;> rfl

/-- Unfolding rule for `lastEventVal` on a cons cell. -/
theorem lastEventVal_cons (b : SBucket) (sr : SubRow) (rest : List SubRow) :
    lastEventVal b (sr :: rest) =
      match lastEventVal b rest with
      | some v => some v
      | none =>
        match rowEvent sr with
        | some bv => if bv.1 = b then some bv.2 else none
        | none => none := rfl

/-- Reading the last column of a non-empty numeric column list is pure
and yields the spec-side value. -/
theorem readLastColVal_ok (cols : List ColData)
    (h : cols.all colNumeric = true) (hne : cols ≠ []) :
    readLastColVal cols = .ok (specLastVal cols) := by
  unfold readLastColVal specLastVal
  cases hl : cols.getLast? with
  | none => exact absurd (List.getLast?_eq_none_iff.mp hl) hne
  | some c =>
    obtain ⟨hne2, hceq⟩ :=
      List.mem_getLast?_eq_getLast (l := cols) (x := c) hl
    have hmem : c ∈ cols := hceq ▸ List.getLast_mem hne2
    have hc : colNumeric c = true := by
      rw [List.all_eq_true] at h
      exact h c hmem
    cases hv : c.value with
    | none => simp [hv, jnumVal]
    | some v =>
      cases v with
      | jnull => simp [colNumeric, hv] at hc
      | jnum q => simp [hv, pyFloat, jnumVal]

/-- A numeric second-level row makes the summary builder's step pure,
equal to the spec-side event application. -/
theorem sbSubStep_ok (sr : SubRow)
    (h : ((sr.colData).getD []).all colNumeric = true) (acc : Summary) :
    sbSubStep acc sr = .ok (sbApply acc sr) := by
  obtain ⟨g, cd⟩ := sr
  cases cd with
  | none => rfl
  | some cols =>
    dsimp only at h
    unfold sbSubStep sbApply rowEvent
    dsimp only
    by_cases hlen : cols.length > 1
    · rw [if_pos hlen, if_pos hlen,
        readLastColVal_ok cols h (by
          intro hnil
          rw [hnil] at hlen
          simp at hlen),
        except_bind_ok, categorize_eq]
      cases classifyLabel (g.getD "") <;> rfl
    · rw [if_neg hlen, if_neg hlen]

/-- Folding the summary builder's step over numeric rows is pure. -/
theorem sbSubStep_foldlM (subs : List SubRow) :
    subs.all (fun sr => ((sr.colData).getD []).all colNumeric) = true →
    ∀ acc : Summary, subs.foldlM sbSubStep acc = .ok (subs.foldl sbApply acc) := by
  induction subs with
  | nil => intro _ acc; simp [List.foldlM, except_pure]
  | cons sr rest ih =>
    intro h acc
    simp only [List.all_cons, Bool.and_eq_true] at h
    rw [List.foldlM_cons, sbSubStep_ok sr h.1 acc, except_bind_ok,
      List.foldl_cons, ih h.2]

/-- Bucket value after the pure fold: the last matching event's value,
defaulting to the initial bucket value. -/
theorem sbApply_foldl_getBucket (b : SBucket) (subs : List SubRow) :
    ∀ acc : Summary, getBucket (subs.foldl sbApply acc) b =
      (lastEventVal b subs).getD (getBucket acc b) := by
  induction subs with
  | nil => intro acc; rfl
  | cons sr rest ih =>
    intro acc
    rw [List.foldl_cons, ih, lastEventVal_cons]
    cases hrest : lastEventVal b rest with
    | some v => rfl
    | none =>
      dsimp only
      unfold sbApply
      cases hev : rowEvent sr with
      | none => rfl
      | some bv =>
        dsimp only
        by_cases hb : bv.1 = b
        · rw [if_pos hb, hb, getBucket_setBucket_same]
          rfl
        · rw [if_neg hb,
            getBucket_setBucket_ne acc bv.1 b bv.2 (fun hh => hb hh.symm)]

/-- Folding the summary builder over numeric top-level rows is pure
and equals the pure fold over the flattened second-level rows. -/
theorem sbRowStep_foldlM (rows : List TopRow) :
    rows.all topRowNumeric = true → ∀ acc : Summary,
      rows.foldlM sbRowStep acc = .ok ((secondLevel rows).foldl sbApply acc) := by
  induction rows with
  | nil => intro _ acc; simp [List.foldlM, secondLevel, except_pure]
  | cons r rs ih =>
    intro h acc
    simp only [List.all_cons, Bool.and_eq_true] at h
    rw [List.foldlM_cons]
    cases hrr : r.rows with
    | none =>
      have hstep : sbRowStep acc r = pure acc := by
        unfold sbRowStep
        rw [hrr]
      rw [hstep, except_pure, except_bind_ok, ih h.2]
      simp [secondLevel, hrr]
    | some subs =>
      have hsubs :
          subs.all (fun sr => ((sr.colData).getD []).all colNumeric) = true := by
        have h1 := h.1
        unfold topRowNumeric at h1
        rw [hrr] at h1
        simp only [Bool.and_eq_true] at h1
        simpa using h1.2
      have hstep : sbRowStep acc r = subs.foldlM sbSubStep acc := by
        unfold sbRowStep
        rw [hrr]
      rw [hstep, sbSubStep_foldlM subs hsubs acc, except_bind_ok, ih h.2]
      simp [secondLevel, hrr, List.foldl_append]

/-- The spec-side classification never targets the `net_income`
bucket. -/
theorem classifyLabel_ne_netIncome (label : String) :
    classifyLabel label ≠ some .eqNetIncome := by
  unfold classifyLabel
  split_ifs <;> simp

/-- A row event never carries the `net_income` bucket. -/
theorem rowEvent_ne_netIncome (sr : SubRow) (bv : SBucket × ℚ)
    (hev : rowEvent sr = some bv) : bv.1 ≠ SBucket.eqNetIncome := by
  unfold rowEvent at hev
  cases hcd : sr.colData with
  | none => rw [hcd] at hev; exact absurd hev (by simp)
  | some cols =>
    rw [hcd] at hev
    dsimp only at hev
    by_cases hlen : cols.length > 1
    · rw [if_pos hlen] at hev
      cases hcl : classifyLabel (sr.group.getD "") with
      | none => rw [hcl] at hev; exact absurd hev (by simp)
      | some b =>
        rw [hcl] at hev
        have hb : b ≠ .eqNetIncome := fun hh =>
          classifyLabel_ne_netIncome _ (hh ▸ hcl)
        cases hev
        exact hb
    · rw [if_neg hlen] at hev
      exact absurd hev (by simp)

/-- No list of rows produces a value for the `net_income` bucket. -/
theorem lastEventVal_netIncome (subs : List SubRow) :
    lastEventVal .eqNetIncome subs = none := by
  induction subs with
  | nil => rfl
  | cons sr rest ih =>
    rw [lastEventVal_cons, ih]
    cases hev : rowEvent sr with
    | none => rfl
    | some bv =>
      show (if bv.1 = SBucket.eqNetIncome then some bv.2 else none) = none
      rw [if_neg (rowEvent_ne_netIncome sr bv hev)]

/-- Characterisation of the summary builder on numeric payloads with
a `Rows` collection. -/
theorem generate_summary_spec (bs : Report) (rows : List TopRow)
    (hrows : bs.rows = some rows) (hnum : reportNumeric bs = true) :
    generate_summary_balance_sheet bs = .ok (some (specSummary rows)) := by
  have hnum2 : rows.all topRowNumeric = true := by
    unfold reportNumeric at hnum
    rw [hrows] at hnum
    simpa using hnum
  unfold generate_summary_balance_sheet
  rw [hrows]
  show (rows.foldlM sbRowStep ({} : Summary) >>= fun sm =>
    Except.ok (some { sm with
      total_assets := sm.assets_current + sm.assets_fixed + sm.assets_other
      total_liabilities := sm.liabilities_current + sm.liabilities_long_term
      total_equity := sm.equity_owners_equity + sm.equity_retained_earnings })) = _
  rw [sbRowStep_foldlM rows hnum2 ({} : Summary), except_bind_ok]
  have hb : ∀ b : SBucket, getBucket ((secondLevel rows).foldl sbApply {}) b =
      specBucketVal rows b := by
    intro b
    rw [sbApply_foldl_getBucket]
    unfold specBucketVal
    cases b <;> rfl
  have hni : ((secondLevel rows).foldl sbApply {}).equity_net_income = 0 := by
    have h1 := hb .eqNetIncome
    unfold specBucketVal at h1
    rw [lastEventVal_netIncome] at h1
    exact h1
  refine congrArg _ (congrArg _ ?_)
  unfold specSummary
  rw [Summary.mk.injEq]
  refine ⟨hb .assetsCurrent, hb .assetsFixed, hb .assetsOther, hb .liabCurrent,
    hb .liabLongTerm, hb .eqOwners, hb .eqRetained, hni, ?_, ?_, ?_⟩
  · rw [← hb .assetsCurrent, ← hb .assetsFixed, ← hb .assetsOther]
    rfl
  · rw [← hb .liabCurrent, ← hb .liabLongTerm]
    rfl
  · rw [← hb .eqOwners, ← hb .eqRetained]
    rfl

/-- Claim C3: for every balance-sheet payload with a `Rows` collection
and numeric column values, the summary builder returns exactly the
spec-side summary: each bucket holds the last matching second-level
row's last-column value under the claim's case-insensitive substring
classification (later matches overwrite earlier ones, only rows with a
group label and at least two columns are classified), the totals are
the derived sums, and the `net_income` bucket stays zero. -/
theorem claim_C3 (bs : Report) (rows : List TopRow)
    (hrows : bs.rows = some rows) (hnum : reportNumeric bs = true) :
    generate_summary_balance_sheet bs = .ok (some (specSummary rows)) :=
  generate_summary_spec bs rows hrows hnum

/-- Witness for claim C3 at a concrete balance sheet: the
`Current Assets` row lands in `assets.current`, the `Equity` row in
`equity.owners_equity`, the derived `total_assets` is their sum over
the asset buckets, and `net_income` stays zero. -/
theorem claim_C3_witness :
    generate_summary_balance_sheet bsScenD = .ok (some (specSummary rowsScenD)) ∧
    (specSummary rowsScenD).assets_current = 300000 ∧
    (specSummary rowsScenD).equity_owners_equity = 300000 ∧
    (specSummary rowsScenD).total_assets = 300000 ∧
    (specSummary rowsScenD).equity_net_income = 0 := by
  have h1 : (specSummary rowsScenD).total_assets = 300000 + 0 + 0 := rfl
  have h2 : (300000 : ℚ) + 0 + 0 = 300000 := by norm_num
  exact ⟨claim_C3 bsScenD rowsScenD rfl rfl, rfl, rfl, h1.trans h2, rfl⟩

/-- `getLast?.getD` through a cons: the head only matters when the
tail is empty. -/
theorem getLast?_getD_cons {α : Type} (v init : α) (L : List α) :
    ((v :: L).getLast?).getD init = (L.getLast?).getD v := by
  cases L with
  | nil => rfl
  | cons x xs =>
    rw [List.getLast?_cons_cons,
      List.getLast?_eq_getLast_of_ne_nil (List.cons_ne_nil x xs)]
    rfl

/-- The inner retained-earnings scan on numeric sub-rows is pure and
returns the section's first match. -/
theorem retainedScanSubs_spec (subs : List SubRow) :
    subs.all (fun sr => ((sr.colData).getD []).all colNumeric) = true →
    retainedScanSubs subs = .ok (specSectionFirstRetained subs) := by
  induction subs with
  | nil => intro _; rfl
  | cons sr rest ih =>
    intro h
    simp only [List.all_cons, Bool.and_eq_true] at h
    obtain ⟨g, cd⟩ := sr
    cases cd with
    | none =>
      show retainedScanSubs rest = _
      rw [ih h.2]
      unfold specSectionFirstRetained
      rw [List.find?_cons_of_neg _ (by simp [retainedMatch])]
    | some cols =>
      have hcols : cols.all colNumeric = true := by
        have h1 := h.1
        dsimp only at h1
        simpa using h1
      by_cases hlen : cols.length > 1
      · by_cases hmat : strIn "RETAINED" (pyUpper (g.getD "")) = true
        · show (if cols.length > 1 then
              if strIn "RETAINED" (pyUpper (g.getD "")) then do
                let v ← readLastColVal cols
                Except.ok (some v)
              else retainedScanSubs rest
            else retainedScanSubs rest) = _
          rw [if_pos hlen, if_pos hmat,
            readLastColVal_ok cols hcols (by
              intro hnil
              rw [hnil] at hlen
              simp at hlen),
            except_bind_ok]
          unfold specSectionFirstRetained
          rw [List.find?_cons_of_pos _ (by
            simp [retainedMatch, hlen, hmat])]
          rfl
        · show (if cols.length > 1 then
              if strIn "RETAINED" (pyUpper (g.getD "")) then do
                let v ← readLastColVal cols
                Except.ok (some v)
              else retainedScanSubs rest
            else retainedScanSubs rest) = _
          rw [if_pos hlen, if_neg hmat, ih h.2]
          unfold specSectionFirstRetained
          rw [List.find?_cons_of_neg _ (by simp [retainedMatch, hmat])]
      · show (if cols.length > 1 then
            if strIn "RETAINED" (pyUpper (g.getD "")) then do
              let v ← readLastColVal cols
              Except.ok (some v)
            else retainedScanSubs rest
          else retainedScanSubs rest) = _
        rw [if_neg hlen, ih h.2]
        unfold specSectionFirstRetained
        rw [List.find?_cons_of_neg _ (by simp [retainedMatch, hlen])]

/-- Folding the retained-earnings section step over numeric rows is
pure: the accumulator ends at the last section value, defaulting to
the initial value. -/
theorem reTopStep_foldlM (rows : List TopRow) :
    rows.all topRowNumeric = true → ∀ init : ℚ,
      rows.foldlM reTopStep init =
        .ok (((sectionRetainedVals rows).getLast?).getD init) := by
  induction rows with
  | nil => intro _ init; simp [List.foldlM, sectionRetainedVals, except_pure]
  | cons r rs ih =>
    intro h init
    simp only [List.all_cons, Bool.and_eq_true] at h
    rw [List.foldlM_cons]
    obtain ⟨cd, rr⟩ := r
    cases rr with
    | none =>
      have hstep : reTopStep init ⟨cd, none⟩ = pure init := rfl
      rw [hstep, except_pure, except_bind_ok, ih h.2]
      have hsect : sectionRetainedVals (⟨cd, none⟩ :: rs) =
          sectionRetainedVals rs := by
        unfold sectionRetainedVals
        rw [List.filterMap_cons_none]
        rfl
      rw [hsect]
    | some subs =>
      have hsubs :
          subs.all (fun sr => ((sr.colData).getD []).all colNumeric) = true := by
        have h1 := h.1
        unfold topRowNumeric at h1
        dsimp only at h1
        simp only [Bool.and_eq_true] at h1
        simpa using h1.2
      have hstep : reTopStep init ⟨cd, some subs⟩ =
          (retainedScanSubs subs >>= fun x =>
            match x with
            | some v => pure v
            | none => pure init) := rfl
      rw [hstep, retainedScanSubs_spec subs hsubs, except_bind_ok]
      cases hfirst : specSectionFirstRetained subs with
      | none =>
        show (pure init >>= fun b => rs.foldlM reTopStep b) = _
        rw [except_pure, except_bind_ok, ih h.2]
        have hsect : sectionRetainedVals (⟨cd, some subs⟩ :: rs) =
            sectionRetainedVals rs := by
          unfold sectionRetainedVals
          rw [List.filterMap_cons_none]
          dsimp only
          exact hfirst
        rw [hsect]
      | some v =>
        show (pure v >>= fun b => rs.foldlM reTopStep b) = _
        rw [except_pure, except_bind_ok, ih h.2]
        have hsect : sectionRetainedVals (⟨cd, some subs⟩ :: rs) =
            v :: sectionRetainedVals rs := by
          unfold sectionRetainedVals
          rw [List.filterMap_cons_some]
          dsimp only
          exact hfirst
        rw [hsect, getLast?_getD_cons]

/-- Characterisation of the retained-earnings check on numeric
payloads with a `Rows` collection. -/
theorem validate_retained_earnings_spec (bs tb : Report) (rows : List TopRow)
    (s : RState) (hrows : bs.rows = some rows)
    (hnum : reportNumeric bs = true) :
    validate_retained_earnings bs tb s =
      .ok { adjustments := s.adjustments ++
              (if specRetained rows < 0
               then [specREAdjustment (specRetained rows)] else [])
            checks := s.checks } := by
  have hnum2 : rows.all topRowNumeric = true := by
    unfold reportNumeric at hnum
    rw [hrows] at hnum
    simpa using hnum
  unfold validate_retained_earnings
  rw [hrows]
  show (rows.foldlM reTopStep (0 : ℚ) >>= fun retained_earnings =>
    if retained_earnings < 0 then
      Except.ok { s with adjustments := s.adjustments ++
        [{ account_name := "Retained Earnings"
           original_amount := retained_earnings
           adjusted_amount := retained_earnings
           adjustment_amount := 0
           reason := "Negative retained earnings: $" ++ fmtComma2 retained_earnings
           adjustment_type := "info" }] }
    else Except.ok s) = _
  rw [reTopStep_foldlM rows hnum2 0, except_bind_ok]
  unfold specRetained
  split_ifs with hneg
  · simp [specREAdjustment]
  · simp

/-- Claim C8 (amended): for every balance-sheet payload with a `Rows`
collection and numeric column values, the retained-earnings check
reads, per top-level section, that section's first sub-row with at
least two columns whose label contains `RETAINED` (case-insensitive),
later sections overwriting earlier ones — i.e. effectively the first
matching sub-row of the last section containing a match, defaulting to
0 — and appends exactly one `info` adjustment with delta 0 citing the
value if and only if that value is negative. -/
theorem claim_C8_amended (bs tb : Report) (rows : List TopRow)
    (s : RState) (hrows : bs.rows = some rows)
    (hnum : reportNumeric bs = true) :
    validate_retained_earnings bs tb s =
      .ok { adjustments := s.adjustments ++
              (if specRetained rows < 0
               then [specREAdjustment (specRetained rows)] else [])
            checks := s.checks } :=
  validate_retained_earnings_spec bs tb rows s hrows hnum

/-- Counterexample to claim C8 as stated: on `bsTwoRe` the first
matching group in traversal order holds -5.00, which is negative, so
the claim requires an adjustment — but the check appends none, because
the `break` only exits the inner loop and the second section's 3.00
overwrites the -5.00. -/
theorem claim_C8_counterexample :
    validate_retained_earnings bsTwoRe tbMin {} = .ok {} ∧
    specFirstRetainedOverall rowsTwoRe = some (-5) ∧ ((-5 : ℚ) < 0) := by
  refine ⟨?_, rfl, by norm_num⟩
  rw [validate_retained_earnings_spec bsTwoRe tbMin rowsTwoRe {} rfl rfl]
  rw [show specRetained rowsTwoRe = 3 from rfl]
  rw [if_neg (by norm_num : ¬ ((3 : ℚ) < 0))]
  rfl

/-- Witness for the amended claim C8: a single section whose
`Retained Earnings` group holds -5.00 produces exactly one `info`
adjustment with delta 0 citing the value. -/
theorem claim_C8_amended_witness :
    validate_retained_earnings bsRe1 tbMin {} =
      .ok { adjustments :=
              [ { account_name := "Retained Earnings"
                  original_amount := -5
                  adjusted_amount := -5
                  adjustment_amount := 0
                  reason := "Negative retained earnings: $-5.00"
                  adjustment_type := "info" } ]
            checks := [] } := by
  have h1 := claim_C8_amended bsRe1 tbMin rowsRe1 {} rfl rfl
  rw [show specRetained rowsRe1 = -5 from rfl] at h1
  rw [h1, if_pos (by norm_num : ((-5 : ℚ) < 0))]
  have hfmt : fmtComma2 (-5 : ℚ) = "-5.00" := by
    rw [fmtComma2_eval (-5) (-500) (by norm_num)]
    rw [show ((-500 : ℤ).natAbs / 100) = 5 from rfl, commaGroup]
    norm_num
    rfl
  simp [specREAdjustment, hfmt]

/-- A monadic fold whose step only ever raises `TypeError` only ever
raises `TypeError`. -/
theorem foldlM_err {α β : Type} (f : β → α → Except PyErr β)
    (hf : ∀ b a e, f b a = .error e → e = .typeError) :
    ∀ (l : List α) (b : β) (e : PyErr), l.foldlM f b = .error e → e = .typeError := by
  intro l
  induction l with
  | nil =>
    intro b e h
    rw [List.foldlM_nil] at h
    exact absurd h (by simp [except_pure])
  | cons x xs ih =>
    intro b e h
    rw [List.foldlM_cons] at h
    cases hfx : f b x with
    | error e2 =>
      rw [hfx, except_bind_err] at h
      injection h with h2
      exact h2 ▸ hf b x e2 hfx
    | ok b2 =>
      rw [hfx, except_bind_ok] at h
      exact ih b2 e h

/-- A monadic fold whose step succeeds on every element satisfying `p`
succeeds on a list of such elements. -/
theorem foldlM_exists_ok {α β : Type} (f : β → α → Except PyErr β) (p : α → Bool)
    (hf : ∀ b a, p a = true → ∃ b2, f b a = .ok b2) :
    ∀ (l : List α), l.all p = true → ∀ b : β, ∃ b2, l.foldlM f b = .ok b2 := by
  intro l
  induction l with
  | nil => intro _ b; exact ⟨b, by rw [List.foldlM_nil]; rfl⟩
  | cons x xs ih =>
    intro h b
    simp only [List.all_cons, Bool.and_eq_true] at h
    obtain ⟨b2, hb2⟩ := hf b x h.1
    obtain ⟨b3, hb3⟩ := ih h.2 b2
    exact ⟨b3, by rw [List.foldlM_cons, hb2, except_bind_ok, hb3]⟩

/-- `float` raises only `TypeError`. -/
theorem pyFloat_err (v : JVal) (e : PyErr) (h : pyFloat v = .error e) :
    e = .typeError := by
  cases v with
  | jnum q => exact absurd h (by simp [pyFloat])
  | jnull =>
    injection h with h2
    exact h2.symm

/-- The trial-balance column step raises only `TypeError`. -/
theorem tbColStep_err (acc : ℚ × ℚ) (col : ColData) (e : PyErr)
    (h : tbColStep acc col = .error e) : e = .typeError := by
  unfold tbColStep at h
  cases hv : col.value with
  | none => rw [hv] at h; exact absurd h (by simp)
  | some v =>
    rw [hv] at h
    dsimp only at h
    by_cases hz : jvalNeZero v = true
    · rw [if_pos hz] at h
      by_cases hd : col.id = some "Debit"
      · rw [if_pos hd] at h
        cases hpv : pyFloat v with
        | error e2 =>
          rw [hpv, except_bind_err] at h
          injection h with h2
          exact h2 ▸ pyFloat_err v e2 hpv
        | ok q => rw [hpv, except_bind_ok] at h; exact absurd h (by simp)
      · rw [if_neg hd] at h
        by_cases hc : col.id = some "Credit"
        · rw [if_pos hc] at h
          cases hpv : pyFloat v with
          | error e2 =>
            rw [hpv, except_bind_err] at h
            injection h with h2
            exact h2 ▸ pyFloat_err v e2 hpv
          | ok q => rw [hpv, except_bind_ok] at h; exact absurd h (by simp)
        · rw [if_neg hc] at h; exact absurd h (by simp)
    · rw [if_neg hz] at h; exact absurd h (by simp)

/-- The trial-balance row step raises only `TypeError`. -/
theorem tbRowStep_err (acc : ℚ × ℚ) (row : TopRow) (e : PyErr)
    (h : tbRowStep acc row = .error e) : e = .typeError := by
  unfold tbRowStep at h
  cases hcd : row.colData with
  | none => rw [hcd] at h; exact absurd h (by simp)
  | some cols =>
    rw [hcd] at h
    exact foldlM_err tbColStep tbColStep_err cols acc e h

/-- The trial-balance check raises only `TypeError`. -/
theorem validate_trial_balance_err (tb : Report) (s : RState) (e : PyErr)
    (h : validate_trial_balance tb s = .error e) : e = .typeError := by
  unfold validate_trial_balance at h
  cases hr : tb.rows with
  | none => rw [hr] at h; exact absurd h (by simp)
  | some rows =>
    rw [hr] at h
    dsimp only at h
    cases hf : rows.foldlM tbRowStep ((0 : ℚ), (0 : ℚ)) with
    | error e2 =>
      rw [hf, except_bind_err] at h
      injection h with h2
      exact h2 ▸ foldlM_err tbRowStep tbRowStep_err rows _ e2 hf
    | ok tot =>
      rw [hf, except_bind_ok] at h
      split_ifs at h

/-- Reading a last column raises only `TypeError`. -/
theorem readLastColVal_err (cols : List ColData) (e : PyErr)
    (h : readLastColVal cols = .error e) : e = .typeError := by
  unfold readLastColVal at h
  cases hl : cols.getLast? with
  | none =>
    rw [hl] at h
    injection h with h2
    exact h2.symm
  | some c =>
    rw [hl] at h
    dsimp only at h
    cases hv : c.value with
    | none => rw [hv] at h; exact absurd h (by simp)
    | some v =>
      rw [hv] at h
      exact pyFloat_err v e h

/-- The balance-sheet totals sub-row step raises only `TypeError`. -/
theorem bsSubStep_err (acc : ℚ × ℚ × ℚ) (sr : SubRow) (e : PyErr)
    (h : bsSubStep acc sr = .error e) : e = .typeError := by
  unfold bsSubStep at h
  cases hcd : sr.colData with
  | none => rw [hcd] at h; exact absurd h (by simp)
  | some cols =>
    rw [hcd] at h
    dsimp only at h
    by_cases hlen : cols.length > 1
    · rw [if_pos hlen] at h
      cases hrv : readLastColVal cols with
      | error e2 =>
        rw [hrv, except_bind_err] at h
        injection h with h2
        exact h2 ▸ readLastColVal_err cols e2 hrv
      | ok v =>
        rw [hrv, except_bind_ok] at h
        split_ifs at h
    · rw [if_neg hlen] at h
      exact absurd h (by simp)

/-- The balance-sheet totals top-row step raises only `TypeError`. -/
theorem bsTopStep_err (acc : ℚ × ℚ × ℚ) (row : TopRow) (e : PyErr)
    (h : bsTopStep acc row = .error e) : e = .typeError := by
  unfold bsTopStep at h
  cases hrr : row.rows with
  | none => rw [hrr] at h; exact absurd h (by simp [except_pure])
  | some subs =>
    rw [hrr] at h
    exact foldlM_err bsSubStep bsSubStep_err subs acc e h

/-- The balance-sheet totals check raises only `TypeError`. -/
theorem verify_balance_sheet_totals_err (bs : Report) (s : RState) (e : PyErr)
    (h : verify_balance_sheet_totals bs s = .error e) : e = .typeError := by
  unfold verify_balance_sheet_totals at h
  cases hr : bs.rows with
  | none => rw [hr] at h; exact absurd h (by simp)
  | some rows =>
    rw [hr] at h
    dsimp only at h
    cases hf : rows.foldlM bsTopStep ((0 : ℚ), (0 : ℚ), (0 : ℚ)) with
    | error e2 =>
      rw [hf, except_bind_err] at h
      injection h with h2
      exact h2 ▸ foldlM_err bsTopStep bsTopStep_err rows _ e2 hf
    | ok tot =>
      rw [hf, except_bind_ok] at h
      split_ifs at h

/-- The inner retained-earnings scan raises only `TypeError`. -/
theorem retainedScanSubs_err (subs : List SubRow) :
    ∀ e : PyErr, retainedScanSubs subs = .error e → e = .typeError := by
  induction subs with
  | nil => intro e h; exact absurd h (by simp [retainedScanSubs])
  | cons sr rest ih =>
    intro e h
    obtain ⟨g, cd⟩ := sr
    cases cd with
    | none => exact ih e h
    | some cols =>
      by_cases hlen : cols.length > 1
      · by_cases hmat : strIn "RETAINED" (pyUpper (g.getD "")) = true
        · have h2 : (if cols.length > 1 then
              if strIn "RETAINED" (pyUpper (g.getD "")) then do
                let v ← readLastColVal cols
                Except.ok (some v)
              else retainedScanSubs rest
            else retainedScanSubs rest) = .error e := h
          rw [if_pos hlen, if_pos hmat] at h2
          cases hrv : readLastColVal cols with
          | error e2 =>
            rw [hrv, except_bind_err] at h2
            injection h2 with h3
            exact h3 ▸ readLastColVal_err cols e2 hrv
          | ok v => rw [hrv, except_bind_ok] at h2; exact absurd h2 (by simp)
        · have h2 : (if cols.length > 1 then
              if strIn "RETAINED" (pyUpper (g.getD "")) then do
                let v ← readLastColVal cols
                Except.ok (some v)
              else retainedScanSubs rest
            else retainedScanSubs rest) = .error e := h
          rw [if_pos hlen, if_neg hmat] at h2
          exact ih e h2
      · have h2 : (if cols.length > 1 then
            if strIn "RETAINED" (pyUpper (g.getD "")) then do
              let v ← readLastColVal cols
              Except.ok (some v)
            else retainedScanSubs rest
          else retainedScanSubs rest) = .error e := h
        rw [if_neg hlen] at h2
        exact ih e h2

/-- The retained-earnings section step raises only `TypeError`. -/
theorem reTopStep_err (acc : ℚ) (row : TopRow) (e : PyErr)
    (h : reTopStep acc row = .error e) : e = .typeError := by
  unfold reTopStep at h
  cases hrr : row.rows with
  | none => rw [hrr] at h; exact absurd h (by simp [except_pure])
  | some subs =>
    rw [hrr] at h
    dsimp only at h
    cases hscan : retainedScanSubs subs with
    | error e2 =>
      rw [hscan, except_bind_err] at h
      injection h with h2
      exact h2 ▸ retainedScanSubs_err subs e2 hscan
    | ok v =>
      rw [hscan, except_bind_ok] at h
      cases v <;> exact absurd h (by simp [except_pure])

/-- The retained-earnings check raises only `TypeError`. -/
theorem validate_retained_earnings_err (bs tb : Report) (s : RState) (e : PyErr)
    (h : validate_retained_earnings bs tb s = .error e) : e = .typeError := by
  unfold validate_retained_earnings at h
  cases hr : bs.rows with
  | none => rw [hr] at h; exact absurd h (by simp)
  | some rows =>
    rw [hr] at h
    dsimp only at h
    cases hf : rows.foldlM reTopStep (0 : ℚ) with
    | error e2 =>
      rw [hf, except_bind_err] at h
      injection h with h2
      exact h2 ▸ foldlM_err reTopStep
        (fun b a e3 he => reTopStep_err b a e3 he) rows _ e2 hf
    | ok re =>
      rw [hf, except_bind_ok] at h
      split_ifs at h

/-- The summary builder's sub-row step raises only `TypeError`. -/
theorem sbSubStep_err (acc : Summary) (sr : SubRow) (e : PyErr)
    (h : sbSubStep acc sr = .error e) : e = .typeError := by
  unfold sbSubStep at h
  cases hcd : sr.colData with
  | none => rw [hcd] at h; exact absurd h (by simp)
  | some cols =>
    rw [hcd] at h
    dsimp only at h
    by_cases hlen : cols.length > 1
    · rw [if_pos hlen] at h
      cases hrv : readLastColVal cols with
      | error e2 =>
        rw [hrv, except_bind_err] at h
        injection h with h2
        exact h2 ▸ readLastColVal_err cols e2 hrv
      | ok v => rw [hrv, except_bind_ok] at h; exact absurd h (by simp)
    · rw [if_neg hlen] at h
      exact absurd h (by simp)

/-- The summary builder's top-row step raises only `TypeError`. -/
theorem sbRowStep_err (acc : Summary) (row : TopRow) (e : PyErr)
    (h : sbRowStep acc row = .error e) : e = .typeError := by
  unfold sbRowStep at h
  cases hrr : row.rows with
  | none => rw [hrr] at h; exact absurd h (by simp [except_pure])
  | some subs =>
    rw [hrr] at h
    exact foldlM_err sbSubStep sbSubStep_err subs acc e h

/-- The summary builder raises only `TypeError`. -/
theorem generate_summary_err (bs : Report) (e : PyErr)
    (h : generate_summary_balance_sheet bs = .error e) : e = .typeError := by
  unfold generate_summary_balance_sheet at h
  cases hr : bs.rows with
  | none => rw [hr] at h; exact absurd h (by simp)
  | some rows =>
    rw [hr] at h
    dsimp only at h
    cases hf : rows.foldlM sbRowStep ({} : Summary) with
    | error e2 =>
      rw [hf, except_bind_err] at h
      injection h with h2
      exact h2 ▸ foldlM_err sbRowStep sbRowStep_err rows _ e2 hf
    | ok sm =>
      rw [hf, except_bind_ok] at h
      exact absurd h (by simp)

theorem bankStep_foldl (l : List QAccount) :
    ∀ s : RState, l.foldl bankStep s =
      { adjustments := s.adjustments ++ l.filterMap specBankAdj
        checks := s.checks } := by
  induction l with
  | nil => intro s; simp [List.filterMap]
  | cons x xs ih =>
    intro s
    rw [List.foldl_cons, ih]
    by_cases hx : |x.currentBalance.getD 0| > 1000000
    · simp only [bankStep, if_pos hx, List.filterMap_cons, specBankAdj, if_pos hx]
      simp [List.append_assoc]
    · simp only [bankStep, if_neg hx, List.filterMap_cons, specBankAdj, if_neg hx]

/-- Characterisation of the bank check: adjustments per `specBankAdj`
when the payload is truthy with a `QueryResponse`, nothing otherwise,
and never a metric or an error. -/
theorem reconcile_bank_accounts_extends (bank : Option Chart) (tb : Report)
    (s : RState) :
    ∃ t, reconcile_bank_accounts bank tb s =
      .ok { adjustments := s.adjustments ++ t, checks := s.checks } := by
  cases bank with
  | none => exact ⟨[], by simp [reconcile_bank_accounts]⟩
  | some b =>
    cases hq : b.queryResponse with
    | none =>
      refine ⟨[], ?_⟩
      unfold reconcile_bank_accounts
      dsimp only
      rw [hq]
      simp
    | some qr =>
      refine ⟨((qr.account).getD []).filterMap specBankAdj, ?_⟩
      unfold reconcile_bank_accounts
      dsimp only
      rw [hq]
      dsimp only
      rw [bankStep_foldl]

/-- Characterisation of the open-items check: records both totals,
appends one informational adjustment when the A/R total exceeds
500,000, never fails, and never appends for the A/P total. -/
theorem verify_open_items_spec (oar : Option OpenAR) (oap : Option OpenAP)
    (s : RState) :
    verify_open_items oar oap s = .ok
      { adjustments := s.adjustments ++
          (if openARTotal oar > 500000
           then [specARAdjustment (openARTotal oar)] else [])
        checks := ("total_open_ap", openAPTotal oap) ::
          ("total_open_ar", openARTotal oar) :: s.checks } := by
  unfold verify_open_items
  dsimp only
  split_ifs with h
  · simp [specARAdjustment]
  · simp

/-- Characterisation of the account-balance check for an arbitrary
chart: it never fails and only appends adjustments. -/
theorem check_account_balances_extends (coa : Chart) (tb : Report) (s : RState) :
    ∃ t, check_account_balances coa tb s =
      .ok { adjustments := s.adjustments ++ t, checks := s.checks } := by
  cases hq : coa.queryResponse with
  | none =>
    refine ⟨[], ?_⟩
    unfold check_account_balances
    rw [hq]
    simp
  | some qr => exact ⟨_, check_account_balances_spec coa tb qr s hq⟩

/-- The trial-balance check on a numeric payload succeeds and only
extends the state. -/
theorem validate_trial_balance_ok (tb : Report) (s : RState)
    (hnum : reportNumeric tb = true) :
    ∃ s2, validate_trial_balance tb s = .ok s2 ∧
      (∃ t, s2.adjustments = s.adjustments ++ t) ∧
      ∃ c, s2.checks = c ++ s.checks := by
  cases hr : tb.rows with
  | none =>
    refine ⟨s, ?_, ⟨[], by simp⟩, ⟨[], rfl⟩⟩
    unfold validate_trial_balance
    rw [hr]
  | some rows =>
    have hnum2 : rows.all topRowNumeric = true := by
      unfold reportNumeric at hnum
      rw [hr] at hnum
      simpa using hnum
    rw [validate_trial_balance_spec tb rows s hr hnum]
    exact ⟨_, rfl, ⟨_, rfl⟩, ⟨[_], rfl⟩⟩

/-- The balance-sheet totals check on a numeric payload succeeds and
only extends the state. -/
theorem verify_balance_sheet_totals_ok (bs : Report) (s : RState)
    (hnum : reportNumeric bs = true) :
    ∃ s2, verify_balance_sheet_totals bs s = .ok s2 ∧
      (∃ t, s2.adjustments = s.adjustments ++ t) ∧
      ∃ c, s2.checks = c ++ s.checks := by
  cases hr : bs.rows with
  | none =>
    refine ⟨s, ?_, ⟨[], by simp⟩, ⟨[], rfl⟩⟩
    unfold verify_balance_sheet_totals
    rw [hr]
  | some rows =>
    have hnum2 : rows.all topRowNumeric = true := by
      unfold reportNumeric at hnum
      rw [hr] at hnum
      simpa using hnum
    have hsub : ∀ (b : ℚ × ℚ × ℚ) (r : TopRow), topRowNumeric r = true →
        ∃ b2, bsTopStep b r = .ok b2 := by
      intro b r hrnum
      unfold bsTopStep
      cases hrr : r.rows with
      | none => exact ⟨b, rfl⟩
      | some subs =>
        have hsubs : subs.all
            (fun sr => ((sr.colData).getD []).all colNumeric) = true := by
          unfold topRowNumeric at hrnum
          rw [hrr] at hrnum
          simp only [Bool.and_eq_true] at hrnum
          simpa using hrnum.2
        refine foldlM_exists_ok bsSubStep
          (fun sr => ((sr.colData).getD []).all colNumeric) ?_ subs hsubs b
        intro b2 sr hnumsr
        unfold bsSubStep
        cases hcd : sr.colData with
        | none => exact ⟨b2, rfl⟩
        | some cols =>
          dsimp only at hnumsr
          rw [hcd] at hnumsr
          simp only [Option.getD_some] at hnumsr
          dsimp only
          by_cases hlen : cols.length > 1
          · rw [if_pos hlen,
              readLastColVal_ok cols hnumsr (by
                intro hnil
                rw [hnil] at hlen
                simp at hlen),
              except_bind_ok]
            split_ifs <;> exact ⟨_, rfl⟩
          · rw [if_neg hlen]
            exact ⟨b2, rfl⟩
    obtain ⟨tot, htot⟩ := foldlM_exists_ok bsTopStep topRowNumeric
      (fun b r hh => hsub b r hh) rows hnum2 ((0 : ℚ), (0 : ℚ), (0 : ℚ))
    unfold verify_balance_sheet_totals
    rw [hr]
    dsimp only
    rw [htot, except_bind_ok]
    split_ifs with hgt
    · exact ⟨_, rfl, ⟨_, rfl⟩, ⟨[_], rfl⟩⟩
    · exact ⟨_, rfl, ⟨[], by simp⟩, ⟨[_], rfl⟩⟩

/-- Chaining two append-extensions. -/
theorem append_extends_trans {α : Type} {a b c : List α}
    (h1 : ∃ t, b = a ++ t) (h2 : ∃ t, c = b ++ t) : ∃ t, c = a ++ t := by
  obtain ⟨t1, ht1⟩ := h1
  obtain ⟨t2, ht2⟩ := h2
  exact ⟨t1 ++ t2, by rw [ht2, ht1, List.append_assoc]⟩

/-- The balance-sheet totals check does nothing without a `Rows` key. -/
theorem verify_balance_sheet_totals_none (bs : Report) (s : RState)
    (hr : bs.rows = none) : verify_balance_sheet_totals bs s = .ok s := by
  unfold verify_balance_sheet_totals
  rw [hr]

/-- The retained-earnings check does nothing without a `Rows` key. -/
theorem validate_retained_earnings_none (bs tb : Report) (s : RState)
    (hr : bs.rows = none) : validate_retained_earnings bs tb s = .ok s := by
  unfold validate_retained_earnings
  rw [hr]

/-- The summary builder returns the empty dict without a `Rows` key. -/
theorem generate_summary_none (bs : Report) (hr : bs.rows = none) :
    generate_summary_balance_sheet bs = .ok none := by
  unfold generate_summary_balance_sheet
  rw [hr]

/-- The retained-earnings check on a numeric payload succeeds and only
appends. -/
theorem validate_retained_earnings_ok (bs tb : Report) (s : RState)
    (hnum : reportNumeric bs = true) :
    ∃ s2, validate_retained_earnings bs tb s = .ok s2 ∧
      (∃ t, s2.adjustments = s.adjustments ++ t) ∧ s2.checks = s.checks := by
  cases hr : bs.rows with
  | none =>
    exact ⟨s, validate_retained_earnings_none bs tb s hr, ⟨[], by simp⟩, rfl⟩
  | some rows =>
    rw [validate_retained_earnings_spec bs tb rows s hr hnum]
    exact ⟨_, rfl, ⟨_, rfl⟩, rfl⟩

/-- A successful trial-balance check only appends adjustments. -/
theorem validate_trial_balance_extends_of_ok (tb : Report) (s s2 : RState)
    (h : validate_trial_balance tb s = .ok s2) :
    ∃ t, s2.adjustments = s.adjustments ++ t := by
  unfold validate_trial_balance at h
  cases hr : tb.rows with
  | none =>
    rw [hr] at h
    injection h with h2
    exact ⟨[], by rw [← h2]; simp⟩
  | some rows =>
    rw [hr] at h
    dsimp only at h
    cases hf : rows.foldlM tbRowStep ((0 : ℚ), (0 : ℚ)) with
    | error e =>
      rw [hf, except_bind_err] at h
      exact absurd h (by simp)
    | ok tot =>
      rw [hf, except_bind_ok] at h
      split_ifs at h
      · injection h with h2
        exact ⟨_, by rw [← h2]⟩
      · injection h with h2
        exact ⟨[], by rw [← h2]; simp⟩

/-- A successful balance-sheet totals check only appends adjustments. -/
theorem verify_balance_sheet_totals_extends_of_ok (bs : Report) (s s2 : RState)
    (h : verify_balance_sheet_totals bs s = .ok s2) :
    ∃ t, s2.adjustments = s.adjustments ++ t := by
  unfold verify_balance_sheet_totals at h
  cases hr : bs.rows with
  | none =>
    rw [hr] at h
    injection h with h2
    exact ⟨[], by rw [← h2]; simp⟩
  | some rows =>
    rw [hr] at h
    dsimp only at h
    cases hf : rows.foldlM bsTopStep ((0 : ℚ), (0 : ℚ), (0 : ℚ)) with
    | error e =>
      rw [hf, except_bind_err] at h
      exact absurd h (by simp)
    | ok tot =>
      rw [hf, except_bind_ok] at h
      split_ifs at h
      · injection h with h2
        exact ⟨_, by rw [← h2]⟩
      · injection h with h2
        exact ⟨[], by rw [← h2]; simp⟩

/-- A successful retained-earnings check only appends adjustments. -/
theorem validate_retained_earnings_extends_of_ok (bs tb : Report) (s s2 : RState)
    (h : validate_retained_earnings bs tb s = .ok s2) :
    ∃ t, s2.adjustments = s.adjustments ++ t := by
  unfold validate_retained_earnings at h
  cases hr : bs.rows with
  | none =>
    rw [hr] at h
    injection h with h2
    exact ⟨[], by rw [← h2]; simp⟩
  | some rows =>
    rw [hr] at h
    dsimp only at h
    cases hf : rows.foldlM reTopStep (0 : ℚ) with
    | error e =>
      rw [hf, except_bind_err] at h
      exact absurd h (by simp)
    | ok re =>
      rw [hf, except_bind_ok] at h
      split_ifs at h
      · injection h with h2
        exact ⟨_, by rw [← h2]⟩
      · injection h with h2
        exact ⟨[], by rw [← h2]; simp⟩

/-- With a collaborator defining all six methods, `reconcile` reduces
to the mandatory-data guard over the checks-and-persist tail. -/
theorem reconcile_fullAPI (tb bs : Option Report) (coa : Option Chart)
    (ar : Option OpenAR) (ap : Option OpenAP) (bank : Option Chart)
    (asOf : Option String) (today : String) (s : RState) :
    reconcile (fullAPI tb bs coa ar ap bank) asOf today s =
      match tb, bs, coa with
      | some tbv, some bsv, some coav =>
        if reportTruthy tbv && reportTruthy bsv && chartTruthy coav then
          runChecksAndPersist tbv bsv coav ar ap bank asOf today s
        else .error .dataUnavailable
      | _, _, _ => .error .dataUnavailable := rfl

/-- Claim C10: with the `QuickBooksAPI` collaborator defined in this
module, every invocation of `reconcile` raises `AttributeError` at the
bank-accounts fetch — the class defines no `get_bank_accounts` method —
before the mandatory-data check or any validation check runs, whatever
the network returned for the five defined fetches and whatever the
instance state; with this collaborator `reconcile` can never return a
result. -/
theorem claim_C10 (tb bs : Option Report) (coa : Option Chart)
    (ar : Option OpenAR) (ap : Option OpenAP) (asOf : Option String)
    (today : String) (s : RState) :
    reconcile (quickBooksAPI tb bs coa ar ap) asOf today s =
      .error (.attributeError "get_bank_accounts") := rfl

/-- The checks-and-persist tail never raises the DataUnavailable
exception: its only failures are `TypeError` from `float` and the
`KeyError` on the empty summary dict. -/
theorem runChecksAndPersist_not_dataUnavailable (tb bs : Report) (coa : Chart)
    (ar : Option OpenAR) (ap : Option OpenAP) (bank : Option Chart)
    (asOf : Option String) (today : String) (s0 : RState) (e : PyErr)
    (h : runChecksAndPersist tb bs coa ar ap bank asOf today s0 = .error e) :
    e ≠ .dataUnavailable := by
  unfold runChecksAndPersist at h
  cases h1 : validate_trial_balance tb s0 with
  | error e1 =>
    rw [h1, except_bind_err] at h
    injection h with h2
    rw [← h2, validate_trial_balance_err tb s0 e1 h1]
    simp
  | ok s1 =>
    rw [h1, except_bind_ok] at h
    cases h2 : verify_balance_sheet_totals bs s1 with
    | error e2 =>
      rw [h2, except_bind_err] at h
      injection h with h3
      rw [← h3, verify_balance_sheet_totals_err bs s1 e2 h2]
      simp
    | ok s2 =>
      rw [h2, except_bind_ok] at h
      obtain ⟨t3, h3⟩ := check_account_balances_extends coa tb s2
      rw [h3, except_bind_ok] at h
      obtain ⟨t4, h4⟩ := reconcile_bank_accounts_extends bank tb
        { adjustments := s2.adjustments ++ t3, checks := s2.checks }
      rw [h4, except_bind_ok] at h
      rw [verify_open_items_spec, except_bind_ok] at h
      cases h6 : validate_retained_earnings bs tb _ with
      | error e6 =>
        rw [h6, except_bind_err] at h
        injection h with h7
        rw [← h7, validate_retained_earnings_err bs tb _ e6 h6]
        simp
      | ok s6 =>
        rw [h6, except_bind_ok] at h
        cases h7 : generate_summary_balance_sheet bs with
        | error e7 =>
          rw [h7, except_bind_err] at h
          injection h with h8
          rw [← h8, generate_summary_err bs e7 h7]
          simp
        | ok osm =>
          rw [h7, except_bind_ok] at h
          cases osm with
          | none =>
            injection h with h8
            rw [← h8]
            simp
          | some sm => exact absurd h (by simp)

/-- Shape of every successful checks-and-persist run: the returned
adjustment list and metrics map are the instance state's, the instance
state only grew by appended adjustments, and the database received the
snapshot row followed by one row per adjustment of the instance
state's full list. -/
theorem runChecksAndPersist_shape (tb bs : Report) (coa : Chart)
    (ar : Option OpenAR) (ap : Option OpenAP) (bank : Option Chart)
    (asOf : Option String) (today : String) (s0 : RState)
    (r : RunResult × RState × List DbWrite)
    (h : runChecksAndPersist tb bs coa ar ap bank asOf today s0 = .ok r) :
    r.1.adjustments = r.2.1.adjustments ∧
    r.1.reconciliation_checks = r.2.1.checks ∧
    (∃ t, r.2.1.adjustments = s0.adjustments ++ t) ∧
    r.2.2 = DbWrite.snapshotWrite
      { dateStr := asOf.getD today
        total_assets := r.1.summary_balance_sheet.total_assets
        total_liabilities := r.1.summary_balance_sheet.total_liabilities
        total_equity := r.1.summary_balance_sheet.total_equity
        is_balanced := r.1.is_balanced
        adjustments_count := r.2.1.adjustments.length
        status := "completed" } :: r.2.1.adjustments.map DbWrite.adjustmentWrite := by
  unfold runChecksAndPersist at h
  cases h1 : validate_trial_balance tb s0 with
  | error e1 => rw [h1, except_bind_err] at h; exact absurd h (by simp)
  | ok s1 =>
    rw [h1, except_bind_ok] at h
    cases h2 : verify_balance_sheet_totals bs s1 with
    | error e2 => rw [h2, except_bind_err] at h; exact absurd h (by simp)
    | ok s2 =>
      rw [h2, except_bind_ok] at h
      obtain ⟨t3, h3⟩ := check_account_balances_extends coa tb s2
      rw [h3, except_bind_ok] at h
      obtain ⟨t4, h4⟩ := reconcile_bank_accounts_extends bank tb
        { adjustments := s2.adjustments ++ t3, checks := s2.checks }
      rw [h4, except_bind_ok] at h
      rw [verify_open_items_spec, except_bind_ok] at h
      cases h6 : validate_retained_earnings bs tb _ with
      | error e6 => rw [h6, except_bind_err] at h; exact absurd h (by simp)
      | ok s6 =>
        rw [h6, except_bind_ok] at h
        cases h7 : generate_summary_balance_sheet bs with
        | error e7 => rw [h7, except_bind_err] at h; exact absurd h (by simp)
        | ok osm =>
          rw [h7, except_bind_ok] at h
          cases osm with
          | none => exact absurd h (by simp)
          | some sm =>
            have hext : ∃ t, s6.adjustments = s0.adjustments ++ t := by
              refine append_extends_trans
                (validate_trial_balance_extends_of_ok tb s0 s1 h1)
                (append_extends_trans
                  (verify_balance_sheet_totals_extends_of_ok bs s1 s2 h2)
                  (append_extends_trans ⟨t3, rfl⟩
                    (append_extends_trans ⟨t4, rfl⟩
                      (append_extends_trans ⟨_, rfl⟩
                        (validate_retained_earnings_extends_of_ok bs tb _ s6 h6)))))
            injection h with h8
            rw [← h8]
            exact ⟨rfl, rfl, hext, rfl⟩

/-- Every successful `reconcile` call, with any collaborator, went
through the checks-and-persist tail on the pre-call instance state. -/
theorem reconcile_ok_shape (api : API) (asOf : Option String) (today : String)
    (s : RState) (r : RunResult × RState × List DbWrite)
    (h : reconcile api asOf today s = .ok r) :
    r.1.adjustments = r.2.1.adjustments ∧
    r.1.reconciliation_checks = r.2.1.checks ∧
    (∃ t, r.2.1.adjustments = s.adjustments ++ t) ∧
    r.2.2 = DbWrite.snapshotWrite
      { dateStr := asOf.getD today
        total_assets := r.1.summary_balance_sheet.total_assets
        total_liabilities := r.1.summary_balance_sheet.total_liabilities
        total_equity := r.1.summary_balance_sheet.total_equity
        is_balanced := r.1.is_balanced
        adjustments_count := r.2.1.adjustments.length
        status := "completed" } :: r.2.1.adjustments.map DbWrite.adjustmentWrite := by
  unfold reconcile at h
  cases hf1 : api.get_trial_balance with
  | missingMethod =>
    rw [hf1] at h
    exact absurd h (by simp [callMethod, except_bind_err])
  | method tb =>
    rw [hf1] at h
    cases hf2 : api.get_balance_sheet_report with
    | missingMethod =>
      rw [hf2] at h
      exact absurd h (by simp [callMethod, except_bind_err, except_bind_ok])
    | method bs =>
      rw [hf2] at h
      cases hf3 : api.get_chart_of_accounts with
      | missingMethod =>
        rw [hf3] at h
        exact absurd h (by simp [callMethod, except_bind_err, except_bind_ok])
      | method coa =>
        rw [hf3] at h
        cases hf4 : api.get_open_ar with
        | missingMethod =>
          rw [hf4] at h
          exact absurd h (by simp [callMethod, except_bind_err, except_bind_ok])
        | method ar =>
          rw [hf4] at h
          cases hf5 : api.get_open_ap with
          | missingMethod =>
            rw [hf5] at h
            exact absurd h (by simp [callMethod, except_bind_err, except_bind_ok])
          | method ap =>
            rw [hf5] at h
            cases hf6 : api.get_bank_accounts with
            | missingMethod =>
              rw [hf6] at h
              exact absurd h (by simp [callMethod, except_bind_err, except_bind_ok])
            | method bank =>
              rw [hf6] at h
              simp only [callMethod, except_bind_ok] at h
              cases tb with
              | none => exact absurd h (by simp)
              | some tbv =>
                cases bs with
                | none => exact absurd h (by simp)
                | some bsv =>
                  cases coa with
                  | none => exact absurd h (by simp)
                  | some coav =>
                    dsimp only at h
                    split_ifs at h with hg
                    exact runChecksAndPersist_shape tbv bsv coav ar ap bank
                      asOf today s r h

/-- The checks-and-persist tail succeeds whenever the balance sheet
has a `Rows` collection and both report payloads are numeric: every
check degrades silently on missing substructure and the optional
payloads may be anything. -/
theorem runChecksAndPersist_ok (tb bs : Report) (coa : Chart)
    (ar : Option OpenAR) (ap : Option OpenAP) (bank : Option Chart)
    (asOf : Option String) (today : String) (s0 : RState)
    (rows : List TopRow) (hrows : bs.rows = some rows)
    (htb : reportNumeric tb = true) (hbs : reportNumeric bs = true) :
    ∃ r, runChecksAndPersist tb bs coa ar ap bank asOf today s0 = .ok r := by
  obtain ⟨s1, h1, _, _⟩ := validate_trial_balance_ok tb s0 htb
  obtain ⟨s2, h2, _, _⟩ := verify_balance_sheet_totals_ok bs s1 hbs
  unfold runChecksAndPersist
  rw [h1, except_bind_ok, h2, except_bind_ok]
  obtain ⟨t3, h3⟩ := check_account_balances_extends coa tb s2
  rw [h3, except_bind_ok]
  obtain ⟨t4, h4⟩ := reconcile_bank_accounts_extends bank tb _
  rw [h4, except_bind_ok]
  rw [verify_open_items_spec, except_bind_ok]
  obtain ⟨s6, h6, _, _⟩ := validate_retained_earnings_ok bs tb _ hbs
  rw [h6, except_bind_ok]
  rw [generate_summary_spec bs rows hrows hbs, except_bind_ok]
  exact ⟨_, rfl⟩

/-- Claim C4 (amended): with a collaborator that defines all six fetch
methods, `reconcile` fails with the DataUnavailable error if and only
if at least one of the trial balance, balance sheet or chart of
accounts payloads is missing/null *or present but falsy* (an empty
dict) after fetch; the guard fires before any check runs, so nothing
is persisted, and the optional open-items and bank payloads never
influence this failure (a run with all three mandatory payloads truthy
may still fail, but only with `TypeError` or `KeyError`, never
DataUnavailable). -/
theorem claim_C4_amended (tb bs : Option Report) (coa : Option Chart)
    (ar : Option OpenAR) (ap : Option OpenAP) (bank : Option Chart)
    (asOf : Option String) (today : String) (s : RState) :
    reconcile (fullAPI tb bs coa ar ap bank) asOf today s =
        .error .dataUnavailable ↔
      ¬(optReportTruthy tb = true ∧ optReportTruthy bs = true ∧
        optChartTruthy coa = true) := by
  rw [reconcile_fullAPI]
  cases tb with
  | none => simp [optReportTruthy]
  | some tbv =>
    cases bs with
    | none => simp [optReportTruthy]
    | some bsv =>
      cases coa with
      | none => simp [optChartTruthy]
      | some coav =>
        dsimp only
        by_cases hg : (reportTruthy tbv && reportTruthy bsv &&
            chartTruthy coav) = true
        · rw [if_pos hg]
          simp only [Bool.and_eq_true] at hg
          constructor
          · intro h
            exact absurd rfl (runChecksAndPersist_not_dataUnavailable tbv bsv
              coav ar ap bank asOf today s _ h)
          · intro hn
            exfalso
            apply hn
            refine ⟨?_, ?_, ?_⟩
            · simpa [optReportTruthy] using hg.1.1
            · simpa [optReportTruthy] using hg.1.2
            · simpa [optChartTruthy] using hg.2
        · rw [if_neg hg]
          simp only [Bool.and_eq_true] at hg
          constructor
          · intro _
            intro hc
            exact hg ⟨⟨by simpa [optReportTruthy] using hc.1,
              by simpa [optReportTruthy] using hc.2.1⟩,
              by simpa [optChartTruthy] using hc.2.2⟩
          · intro _
            rfl

/-- Counterexample to claim C4 as stated: all three mandatory payloads
are present (none is missing/null), yet `reconcile` fails with the
DataUnavailable error, because the trial-balance payload is an empty
dict, which is falsy under Python truthiness and so fails the
`not all([...])` guard. -/
theorem claim_C4_counterexample :
    reconcile (fullAPI (some emptyReport) (some bsMin) (some coaMin)
        none none none) none "2024-01-01" {} = .error .dataUnavailable ∧
    (some emptyReport).isSome = true ∧
    (some bsMin).isSome = true ∧
    (some coaMin).isSome = true :=
  ⟨rfl, rfl, rfl, rfl⟩

/-- With truthy mandatory payloads, a balance sheet with a `Rows`
collection and numeric column values, `reconcile` completes. -/
theorem reconcile_ok_of_wf (tb bs : Report) (coa : Chart)
    (ar : Option OpenAR) (ap : Option OpenAP) (bank : Option Chart)
    (asOf : Option String) (today : String) (s : RState)
    (rows : List TopRow) (htb : reportTruthy tb = true)
    (hbs : reportTruthy bs = true) (hcoa : chartTruthy coa = true)
    (hrows : bs.rows = some rows) (htbn : reportNumeric tb = true)
    (hbsn : reportNumeric bs = true) :
    exceptIsOk (reconcile (fullAPI (some tb) (some bs) (some coa) ar ap bank)
      asOf today s) = true := by
  rw [reconcile_fullAPI]
  dsimp only
  rw [if_pos (by rw [htb, hbs, hcoa]; rfl)]
  obtain ⟨r, hr⟩ := runChecksAndPersist_ok tb bs coa ar ap bank asOf today s
    rows hrows htbn hbsn
  rw [hr]
  rfl

/-- With truthy mandatory payloads, a numeric trial balance, and a
balance sheet that is truthy but has no `Rows` key, `reconcile` fails
with `KeyError` on `total_assets`: every check degrades silently, but
the summary builder returns the empty dict and the result assembly
subscripts it. -/
theorem reconcile_keyError_of_rows_none (tb bs : Report) (coa : Chart)
    (ar : Option OpenAR) (ap : Option OpenAP) (bank : Option Chart)
    (asOf : Option String) (today : String) (s : RState)
    (htb : reportTruthy tb = true) (htbn : reportNumeric tb = true)
    (hbs : reportTruthy bs = true) (hcoa : chartTruthy coa = true)
    (hrows : bs.rows = none) :
    reconcile (fullAPI (some tb) (some bs) (some coa) ar ap bank)
      asOf today s = .error (.keyError "total_assets") := by
  rw [reconcile_fullAPI]
  dsimp only
  rw [if_pos (by rw [htb, hbs, hcoa]; rfl)]
  obtain ⟨s1, h1, _, _⟩ := validate_trial_balance_ok tb s htbn
  unfold runChecksAndPersist
  rw [h1, except_bind_ok,
    verify_balance_sheet_totals_none bs s1 hrows, except_bind_ok]
  obtain ⟨t3, h3⟩ := check_account_balances_extends coa tb s1
  rw [h3, except_bind_ok]
  obtain ⟨t4, h4⟩ := reconcile_bank_accounts_extends bank tb _
  rw [h4, except_bind_ok]
  rw [verify_open_items_spec, except_bind_ok]
  rw [validate_retained_earnings_none bs tb _ hrows, except_bind_ok]
  rw [generate_summary_none bs hrows, except_bind_ok]

/-- Claim C6 (amended): every check treats missing substructure
(absent rows, columns or values) as zero/absent, and a run whose three
mandatory payloads are truthy, whose balance sheet has a `Rows`
collection, and whose column values are non-null completes — but a
balance-sheet payload *without* a top-level `Rows` collection does
make the run fail: the summary builder returns the empty dict and
`reconcile` raises `KeyError` reading `total_assets` from it. -/
theorem claim_C6_amended :
    (∀ (tb bs : Report) (coa : Chart) (ar : Option OpenAR) (ap : Option OpenAP)
      (bank : Option Chart) (asOf : Option String) (today : String)
      (s : RState) (rows : List TopRow),
      reportTruthy tb = true → reportTruthy bs = true →
      chartTruthy coa = true → bs.rows = some rows →
      reportNumeric tb = true → reportNumeric bs = true →
      exceptIsOk (reconcile (fullAPI (some tb) (some bs) (some coa) ar ap bank)
        asOf today s) = true) ∧
    (∀ (tb bs : Report) (coa : Chart) (ar : Option OpenAR) (ap : Option OpenAP)
      (bank : Option Chart) (asOf : Option String) (today : String)
      (s : RState),
      reportTruthy tb = true → reportNumeric tb = true →
      reportTruthy bs = true → chartTruthy coa = true → bs.rows = none →
      reconcile (fullAPI (some tb) (some bs) (some coa) ar ap bank)
        asOf today s = .error (.keyError "total_assets")) :=
  ⟨fun tb bs coa ar ap bank asOf today s rows htb hbs hcoa hrows htbn hbsn =>
    reconcile_ok_of_wf tb bs coa ar ap bank asOf today s rows htb hbs hcoa
      hrows htbn hbsn,
   fun tb bs coa ar ap bank asOf today s htb htbn hbs hcoa hrows =>
    reconcile_keyError_of_rows_none tb bs coa ar ap bank asOf today s htb htbn
      hbs hcoa hrows⟩

/-- Counterexample to claim C6 as stated: a balance-sheet payload
without a top-level rows collection does cause the run to fail — the
summary builder returns the empty dict and `reconcile` raises
`KeyError` on `total_assets`. -/
theorem claim_C6_counterexample :
    reconcile (fullAPI (some tbMin) (some bsNR) (some coaMin) none none none)
        none "2024-01-01" {} = .error (.keyError "total_assets") ∧
    reportTruthy bsNR = true ∧ bsNR.rows = none :=
  ⟨reconcile_keyError_of_rows_none tbMin bsNR coaMin none none none none
      "2024-01-01" {} rfl rfl rfl rfl rfl, rfl, rfl⟩

/-- Witness for the amended claim C6: a fully-degenerate but
well-formed run (empty rows everywhere) completes, while the same run
with a rows-less balance sheet raises the `KeyError`. -/
theorem claim_C6_amended_witness :
    exceptIsOk (reconcile (fullAPI (some tbMin) (some bsMin) (some coaMin)
      none none none) none "2024-01-01" {}) = true ∧
    reconcile (fullAPI (some tbMin) (some bsNR) (some coaMin) none none none)
      none "2024-01-02" {} = .error (.keyError "total_assets") :=
  ⟨claim_C6_amended.1 tbMin bsMin coaMin none none none none "2024-01-01" {}
      [] rfl rfl rfl rfl rfl rfl,
   claim_C6_amended.2 tbMin bsNR coaMin none none none none "2024-01-02" {}
      rfl rfl rfl rfl rfl⟩

/-- An exception inside the first check propagates out of `reconcile`
unchanged: none of the later checks runs. -/
theorem reconcile_err_of_check1 (tb bs : Report) (coa : Chart)
    (ar : Option OpenAR) (ap : Option OpenAP) (bank : Option Chart)
    (asOf : Option String) (today : String) (s : RState) (e : PyErr)
    (htb : reportTruthy tb = true) (hbs : reportTruthy bs = true)
    (hcoa : chartTruthy coa = true)
    (h1 : validate_trial_balance tb s = .error e) :
    reconcile (fullAPI (some tb) (some bs) (some coa) ar ap bank)
      asOf today s = .error e := by
  rw [reconcile_fullAPI]
  dsimp only
  rw [if_pos (by rw [htb, hbs, hcoa]; rfl)]
  unfold runChecksAndPersist
  rw [h1, except_bind_err]

/-- Claim C7 (amended): the checks are not isolated from one another —
an exception raised inside the trial-balance check aborts the whole
`reconcile` run with that exception, so the remaining checks do not
execute and contribute nothing. -/
theorem claim_C7_amended (tb bs : Report) (coa : Chart)
    (ar : Option OpenAR) (ap : Option OpenAP) (bank : Option Chart)
    (asOf : Option String) (today : String) (s : RState) (e : PyErr)
    (htb : reportTruthy tb = true) (hbs : reportTruthy bs = true)
    (hcoa : chartTruthy coa = true)
    (h1 : validate_trial_balance tb s = .error e) :
    reconcile (fullAPI (some tb) (some bs) (some coa) ar ap bank)
      asOf today s = .error e :=
  reconcile_err_of_check1 tb bs coa ar ap bank asOf today s e htb hbs hcoa h1

/-- Counterexample to claim C7 as stated: on this input the
trial-balance check raises `TypeError` (a `null` Debit value) and the
whole run aborts with that error, while the account-balance check
alone would have produced the Petty Cash correction — so the remaining
checks did not execute, contradicting the claim. -/
theorem claim_C7_counterexample :
    reconcile (fullAPI (some tbBad) (some bsMin) (some coaPet) none none none)
        none "2024-01-01" {} = .error .typeError ∧
    check_account_balances coaPet tbBad {} =
      .ok { adjustments := [pettyAdj], checks := [] } := by
  constructor
  · exact reconcile_err_of_check1 tbBad bsMin coaPet none none none none
      "2024-01-01" {} .typeError rfl rfl rfl rfl
  · refine (check_account_balances_spec coaPet tbBad
      { account := some
          [ { name := some "Petty Cash"
              accountType := some "Cash"
              currentBalance := some (-200) } ] } {} rfl).trans ?_
    simp only [Option.getD_some, List.filterMap_cons, List.filterMap_nil,
      specNegAdj]
    norm_num [pettyAdj]
    rfl

/-- Witness for the amended claim C7 at the `null`-Debit trial
balance: the run aborts with the first check's `TypeError`. -/
theorem claim_C7_amended_witness :
    reconcile (fullAPI (some tbBad) (some bsMin) (some coaMin) none none none)
      none "2024-01-01" {} = .error .typeError :=
  claim_C7_amended tbBad bsMin coaMin none none none none "2024-01-01" {}
    .typeError rfl rfl rfl rfl

/-- Trial-balance check on the empty-rows payload: metric 0, no
adjustment. -/
theorem run_tbMin (s : RState) : validate_trial_balance tbMin s =
    .ok { adjustments := s.adjustments
          checks := ("trial_balance_difference", 0) :: s.checks } := by
  rw [validate_trial_balance_spec tbMin [] s rfl rfl]
  rw [show |specDebits ([] : List TopRow) - specCredits []| = 0 from by
    norm_num [specDebits, specCredits]]
  rw [if_neg (by norm_num : ¬ ((0 : ℚ) > 1/100))]
  simp

/-- Balance-sheet totals check on the empty-rows payload: metric 0, no
adjustment. -/
theorem run_bsMin (s : RState) : verify_balance_sheet_totals bsMin s =
    .ok { adjustments := s.adjustments
          checks := ("balance_sheet_difference", 0) :: s.checks } := by
  unfold verify_balance_sheet_totals bsMin
  dsimp only
  rw [List.foldlM_nil, except_pure, except_bind_ok]
  dsimp only
  rw [show |(0 : ℚ) - (0 + 0)| = 0 from by norm_num]
  rw [if_neg (by norm_num : ¬ ((0 : ℚ) > 1/100))]

/-- Account-balance check on the empty chart: nothing happens. -/
theorem run_coaMin (tb : Report) (s : RState) :
    check_account_balances coaMin tb s = .ok s :=
  (check_account_balances_spec coaMin tb {} s rfl).trans (by simp)

/-- Bank check without a payload: nothing happens. -/
theorem run_bankNone (tb : Report) (s : RState) :
    reconcile_bank_accounts none tb s = .ok s := rfl

/-- Open-items check without payloads: both metrics 0, no
adjustment. -/
theorem run_openNone (s : RState) : verify_open_items none none s =
    .ok { adjustments := s.adjustments
          checks := ("total_open_ap", 0) :: ("total_open_ar", 0) :: s.checks } := by
  refine (verify_open_items_spec none none s).trans ?_
  rw [show openARTotal none = 0 from rfl, show openAPTotal none = 0 from rfl,
    if_neg (by norm_num : ¬ ((0 : ℚ) > 500000))]
  simp

/-- Retained-earnings check on the empty-rows payload: nothing
happens. -/
theorem run_reMin (tb : Report) (s : RState) :
    validate_retained_earnings bsMin tb s = .ok s := by
  refine (validate_retained_earnings_spec bsMin tb [] s rfl rfl).trans ?_
  rw [show specRetained ([] : List TopRow) = 0 from rfl,
    if_neg (by norm_num : ¬ ((0 : ℚ) < 0))]
  simp

/-- Summary builder on the empty-rows payload: the all-zero summary. -/
theorem run_sumMin : generate_summary_balance_sheet bsMin =
    .ok (some ({} : Summary)) := by
  refine (generate_summary_spec bsMin [] rfl rfl).trans ?_
  have hz : specSummary [] = ({} : Summary) := by
    rw [show specSummary [] =
      { assets_current := 0, assets_fixed := 0, assets_other := 0
        liabilities_current := 0, liabilities_long_term := 0
        equity_owners_equity := 0, equity_retained_earnings := 0
        equity_net_income := 0
        total_assets := 0 + 0 + 0, total_liabilities := 0 + 0
        total_equity := 0 + 0 } from rfl]
    rw [Summary.mk.injEq]
    norm_num
  rw [hz]

/-- Full checks-and-persist run on the minimal well-formed payloads:
the degenerate run records four zero metrics, appends nothing, is
balanced, and persists one snapshot row plus one row per pre-existing
adjustment. -/
theorem runMin (asOf : Option String) (today : String) (s0 : RState) :
    runChecksAndPersist tbMin bsMin coaMin none none none asOf today s0 =
      .ok ({ summary_balance_sheet := {}
             adjustments := s0.adjustments
             reconciliation_checks := ("total_open_ap", 0) ::
               ("total_open_ar", 0) :: ("balance_sheet_difference", 0) ::
               ("trial_balance_difference", 0) :: s0.checks
             is_balanced := true },
           { adjustments := s0.adjustments
             checks := ("total_open_ap", 0) :: ("total_open_ar", 0) ::
               ("balance_sheet_difference", 0) ::
               ("trial_balance_difference", 0) :: s0.checks },
           DbWrite.snapshotWrite
             { dateStr := asOf.getD today
               total_assets := 0
               total_liabilities := 0
               total_equity := 0
               is_balanced := true
               adjustments_count := s0.adjustments.length
               status := "completed" } ::
             s0.adjustments.map DbWrite.adjustmentWrite) := by
  unfold runChecksAndPersist
  rw [run_tbMin, except_bind_ok, run_bsMin, except_bind_ok, run_coaMin,
    except_bind_ok, run_bankNone, except_bind_ok, run_openNone,
    except_bind_ok, run_reMin, except_bind_ok, run_sumMin, except_bind_ok]
  dsimp only
  rw [show decide (|(0 : ℚ) - (0 + 0)| < 1/100) = true from by
    simp only [decide_eq_true_eq]
    norm_num]

/-- With `apiMin` the fetches and the guard reduce away. -/
theorem reconcile_apiMin_run (asOf : Option String) (today : String)
    (s0 : RState) : reconcile apiMin asOf today s0 =
      runChecksAndPersist tbMin bsMin coaMin none none none asOf today s0 := rfl

/-- Claim C5 (amended): `reconcile` persists itself — every successful
run hands the database session a snapshot row built from the run's
summary and balanced flag, followed by one adjustment row per
adjustment of the instance's list, before returning; the write list is
never empty, so persistence is not left to the caller. -/
theorem claim_C5_amended (api : API) (asOf : Option String) (today : String)
    (s : RState) (r : RunResult × RState × List DbWrite)
    (h : reconcile api asOf today s = .ok r) :
    r.2.2 = DbWrite.snapshotWrite
      { dateStr := asOf.getD today
        total_assets := r.1.summary_balance_sheet.total_assets
        total_liabilities := r.1.summary_balance_sheet.total_liabilities
        total_equity := r.1.summary_balance_sheet.total_equity
        is_balanced := r.1.is_balanced
        adjustments_count := r.2.1.adjustments.length
        status := "completed" } :: r.2.1.adjustments.map DbWrite.adjustmentWrite ∧
    r.2.2 ≠ [] := by
  obtain ⟨_, _, _, hw⟩ := reconcile_ok_shape api asOf today s r h
  exact ⟨hw, by rw [hw]; simp⟩

/-- Counterexample to claim C5 as stated: a successful `reconcile`
call does persist — the minimal run returns with a non-empty list of
database writes (the snapshot row). -/
theorem claim_C5_counterexample :
    reconcile apiMin none "2024-01-01" {} = .ok c5res ∧ c5res.2.2 ≠ [] :=
  ⟨(reconcile_apiMin_run none "2024-01-01" {}).trans
      (runMin none "2024-01-01" {}),
   by simp [c5res]⟩

/-- Witness for the amended claim C5 at the minimal run: the write
list is exactly the snapshot row. -/
theorem claim_C5_amended_witness :
    (c5res.2.2 = DbWrite.snapshotWrite
      { dateStr := (none : Option String).getD "2024-01-01"
        total_assets := c5res.1.summary_balance_sheet.total_assets
        total_liabilities := c5res.1.summary_balance_sheet.total_liabilities
        total_equity := c5res.1.summary_balance_sheet.total_equity
        is_balanced := c5res.1.is_balanced
        adjustments_count := c5res.2.1.adjustments.length
        status := "completed" } ::
      c5res.2.1.adjustments.map DbWrite.adjustmentWrite) ∧ c5res.2.2 ≠ [] :=
  claim_C5_amended apiMin none "2024-01-01" {} c5res
    ((reconcile_apiMin_run none "2024-01-01" {}).trans
      (runMin none "2024-01-01" {}))

/-- Account-balance check on the Petty Cash chart: one correction
appended to whatever adjustments the state already carries. -/
theorem run_coaPet (tb : Report) (s : RState) :
    check_account_balances coaPet tb s =
      .ok { adjustments := s.adjustments ++ [pettyAdj], checks := s.checks } := by
  refine (check_account_balances_spec coaPet tb
    { account := some
        [ { name := some "Petty Cash"
            accountType := some "Cash"
            currentBalance := some (-200) } ] } s rfl).trans ?_
  simp only [Option.getD_some, List.filterMap_cons, List.filterMap_nil,
    specNegAdj]
  norm_num [pettyAdj]
  rfl

/-- Full checks-and-persist run on the minimal payloads with the
Petty Cash chart: the Petty Cash correction is appended after the
pre-existing adjustments, and the persisted rows cover the whole
accumulated list. -/
theorem runPet (asOf : Option String) (today : String) (s0 : RState) :
    runChecksAndPersist tbMin bsMin coaPet none none none asOf today s0 =
      .ok ({ summary_balance_sheet := {}
             adjustments := s0.adjustments ++ [pettyAdj]
             reconciliation_checks := ("total_open_ap", 0) ::
               ("total_open_ar", 0) :: ("balance_sheet_difference", 0) ::
               ("trial_balance_difference", 0) :: s0.checks
             is_balanced := true },
           { adjustments := s0.adjustments ++ [pettyAdj]
             checks := ("total_open_ap", 0) :: ("total_open_ar", 0) ::
               ("balance_sheet_difference", 0) ::
               ("trial_balance_difference", 0) :: s0.checks },
           DbWrite.snapshotWrite
             { dateStr := asOf.getD today
               total_assets := 0
               total_liabilities := 0
               total_equity := 0
               is_balanced := true
               adjustments_count := (s0.adjustments ++ [pettyAdj]).length
               status := "completed" } ::
             (s0.adjustments ++ [pettyAdj]).map DbWrite.adjustmentWrite) := by
  unfold runChecksAndPersist
  rw [run_tbMin, except_bind_ok, run_bsMin, except_bind_ok, run_coaPet,
    except_bind_ok, run_bankNone, except_bind_ok, run_openNone,
    except_bind_ok, run_reMin, except_bind_ok, run_sumMin, except_bind_ok]
  dsimp only
  rw [show decide (|(0 : ℚ) - (0 + 0)| < 1/100) = true from by
    simp only [decide_eq_true_eq]
    norm_num]

/-- With `apiPet` the fetches and the guard reduce away. -/
theorem reconcile_apiPet_run (asOf : Option String) (today : String)
    (s0 : RState) : reconcile apiPet asOf today s0 =
      runChecksAndPersist tbMin bsMin coaPet none none none asOf today s0 := rfl

/-- Claim C9 (amended): the instance's adjustment list accumulates
across runs — every successful `reconcile` call returns the pre-call
instance adjustments as a prefix of the result's adjustment list, and
persists a database row for each of them again. -/
theorem claim_C9_amended (api : API) (asOf : Option String) (today : String)
    (s : RState) (r : RunResult × RState × List DbWrite)
    (h : reconcile api asOf today s = .ok r) :
    r.1.adjustments.take s.adjustments.length = s.adjustments ∧
    ∀ a ∈ s.adjustments, DbWrite.adjustmentWrite a ∈ r.2.2 := by
  obtain ⟨h1, _, ⟨t, h3⟩, h4⟩ := reconcile_ok_shape api asOf today s r h
  constructor
  · rw [h1, h3, List.take_left]
  · intro a ha
    rw [h4, h3]
    exact List.mem_cons_of_mem _ (List.mem_map_of_mem _ (List.mem_append_left t ha))

/-- Counterexample to claim C9 as stated: a second `reconcile` call on
the same instance returns the first run's Petty Cash adjustment again
— the second result's list holds two copies though the second
invocation produced only one — and re-persists the first run's
adjustment row. -/
theorem claim_C9_counterexample :
    reconcile apiPet none "2024-01-01" {} = .ok c9res1 ∧
    reconcile apiPet none "2024-01-01" c9res1.2.1 = .ok c9res2 ∧
    c9res1.1.adjustments = [pettyAdj] ∧
    c9res2.1.adjustments = [pettyAdj, pettyAdj] ∧
    c9res2.2.2 = [DbWrite.snapshotWrite
      { dateStr := "2024-01-01"
        total_assets := 0
        total_liabilities := 0
        total_equity := 0
        is_balanced := true
        adjustments_count := 2
        status := "completed" },
      DbWrite.adjustmentWrite pettyAdj, DbWrite.adjustmentWrite pettyAdj] := by
  refine ⟨?_, ?_, rfl, rfl, rfl⟩
  · rw [reconcile_apiPet_run, runPet]
    rfl
  · rw [reconcile_apiPet_run, runPet]
    rfl

/-- Witness for the amended claim C9 at the second Petty Cash run: the
pre-call adjustment is the prefix of the returned list and its row is
written again. -/
theorem claim_C9_amended_witness :
    c9res2.1.adjustments.take c9state1.adjustments.length =
      c9state1.adjustments ∧
    ∀ a ∈ c9state1.adjustments, DbWrite.adjustmentWrite a ∈ c9res2.2.2 :=
  claim_C9_amended apiPet none "2024-01-01" c9state1 c9res2
    (by rw [reconcile_apiPet_run, runPet]; rfl)
